import Mathlib

/-! Verification development for `src/solve-commit.cc`.

A shallow embedding of zypper's solve/commit orchestration: the dependency
problem presenter (`show_problem`), the problem batch handler
(`show_problems`), the solver flag policy (`set_force_resolution` and
friends), the resolution drivers and the top level `solve_and_commit` loop.

The C++ code talks to collaborators that live outside the file (the resolver,
the prompt channel, the summary, the commit operation).  Their answers are
supplied by an `Env` of oracles, indexed by the number of calls made so far;
the calls the code makes and the messages it prints are recorded in the
`World` that every procedure threads through.

`unsigned int` counters (`problem_count`, `solution_count`, `reply`) are the
sizes of in-memory lists of problems and solutions and the indexes of prompt
options, far below 2^32; they are modelled as `Nat`, the sums
`solution_count + 1` and `solution_count + 2` do not wrap.  The loops of
`solve_and_commit` run as long as the operator and the resolver keep them
going; they are bounded by a `fuel` argument, and a run that needs more
iterations ends as `out_of_fuel`.
-/

namespace SolveCommit

/-! ## Data model -/

/-- The three-valued `boost::tribool` / `zypp::TriBool`. -/
inductive TriBool where
  | true
  | false
  | indeterminate
  deriving DecidableEq, Repr

/-- The free function `indeterminate(tribool)`. -/
def indeterminate (t : TriBool) : Bool :=
  match t with
  | TriBool.indeterminate => Bool.true
  | _ => Bool.false

/-- The conversion of a tribool in a boolean context: only `true` converts to true. -/
def TriBool.toBool (t : TriBool) : Bool :=
  match t with
  | TriBool.true => Bool.true
  | _ => Bool.false

/-- The implicit conversion `tribool(bool)`. -/
def TriBool.ofBool (b : Bool) : TriBool :=
  if b then TriBool.true else TriBool.false

/-- The overload `tribool == bool` of boost: indeterminate when the tribool is. -/
def TriBool.eqBool (t : TriBool) (b : Bool) : TriBool :=
  match t with
  | TriBool.indeterminate => TriBool.indeterminate
  | TriBool.true => TriBool.ofBool b
  | TriBool.false => TriBool.ofBool (!b)

/-- The overload `tribool && bool` of boost. -/
def TriBool.andBool (t : TriBool) (b : Bool) : TriBool :=
  match t, b with
  | TriBool.false, _ => TriBool.false
  | _, Bool.false => TriBool.false
  | TriBool.true, Bool.true => TriBool.true
  | TriBool.indeterminate, Bool.true => TriBool.indeterminate

/-- One remediation proposed by the resolver (`zypp::ProblemSolution`). -/
structure ProblemSolution where
  description : String
  details : String
  deriving DecidableEq, Repr

abbrev ProblemSolutionList := List ProblemSolution

/-- One conflict reported by the resolver (`zypp::ResolverProblem`). -/
structure ResolverProblem where
  description : String
  details : String
  solutions : ProblemSolutionList
  deriving DecidableEq, Repr

abbrev ResolverProblemList := List ResolverProblem

/-- Modelled from the spec: the `ZYPPER_EXIT_*` constants are defined outside
`src/`; the spec lists the exit codes this unit produces symbolically. -/
inductive ExitCode where
  | ZYPPER_EXIT_OK
  | ZYPPER_EXIT_ERR_ZYPP
  | ZYPPER_EXIT_ERR_PRIVILEGES
  | ZYPPER_EXIT_INF_REBOOT_NEEDED
  | ZYPPER_EXIT_INF_RESTART_NEEDED
  | ZYPPER_EXIT_INF_CAP_NOT_FOUND
  deriving DecidableEq, Repr

/-- The commands `solve-commit.cc` compares `zypper.command()` against; every
other member of `ZypperCommand` is `OTHER`. -/
inductive ZypperCommand where
  | VERIFY
  | INSTALL
  | REMOVE
  | UPDATE
  | DIST_UPGRADE
  | INSTALL_NEW_RECOMMENDS
  | OTHER (id : Nat)
  deriving DecidableEq, Repr

/-- The prompt identifiers used in this unit. -/
inductive PromptId where
  | PROMPT_DEP_RESOLVE
  | PROMPT_YN_INST_REMOVE_CONTINUE
  deriving DecidableEq, Repr

/-- The `PromptOptions` of `utils/prompt.h`: the option labels, the default
reply index and the per-option help texts. -/
structure PromptOptions where
  options : List String
  default_opt : Nat
  help : List (Nat × String)
  deriving DecidableEq, Repr

/-- The call `popts.setOptions(str, default)`; the slash separated option string
is given as the list of its labels. -/
def PromptOptions.setOptions (_popts : PromptOptions) (labels : List String)
    (default_opt : Nat) : PromptOptions :=
  { options := labels, default_opt := default_opt, help := [] }

/-- The call `popts.setOptionHelp(i, text)`. -/
def PromptOptions.setOptionHelp (popts : PromptOptions) (i : Nat) (text : String) :
    PromptOptions :=
  { popts with help := popts.help ++ [(i, text)] }

/-- A freshly constructed `PromptOptions popts;`. -/
def PromptOptions.empty : PromptOptions :=
  { options := [], default_opt := 0, help := [] }

/-- What `zypper.out()` is asked to show. -/
inductive OutEvent where
  | info (text : String)
  | warning (text : String)
  | error (text : String)
  | prompt (id : PromptId) (text : String) (popts : PromptOptions) (startdesc : String)
  deriving DecidableEq, Repr

/-- The calls made on `God->resolver()`. -/
inductive ResolverCall where
  | setForceResolve (force : Bool)
  | setOnlyRequires (only : Bool)
  | setIgnoreAlreadyRecommended (ignore : Bool)
  | resolvePool
  | verifySystem
  | doUpgrade
  | applySolutions (todo : ProblemSolutionList)
  | undo
  | createSolverTestcase (dir : String)
  deriving DecidableEq, Repr

/-- The fields of `zypper.globalOpts()` read here. -/
structure GlobalOptions where
  non_interactive : Bool
  is_rug_compatible : Bool
  changedRoot : Bool
  deriving DecidableEq, Repr

/-- The fields of `zypper.runtimeData()` read or written here. -/
structure RuntimeData where
  force_resolution : TriBool
  solve_before_commit : Bool
  srcpkgs_to_install : List String
  show_media_progress_hack : Bool
  commit_pkgs_total : Nat
  commit_pkg_current : Nat
  deriving DecidableEq, Repr

/-- The `Zypper` application object, as far as this unit uses it. `cOpts` holds
the keys of the parsed command options (the global `copts` is the same map);
`out_type_xml` says whether `zypper.out().type()` is `Out::TYPE_XML`; `out` is
what was sent to `zypper.out()`. -/
structure Zypper where
  command : ZypperCommand
  cOpts : List String
  globalOpts : GlobalOptions
  runtimeData : RuntimeData
  exitCode : ExitCode
  runningShell : Bool
  out_type_xml : Bool
  out : List OutEvent
  deriving DecidableEq, Repr

/-- The call `zypper.cOpts().count(key)` on the parsed option map: 1 when the
key is present, 0 otherwise. -/
def Zypper.cOpts_count (z : Zypper) (key : String) : Nat :=
  if key ∈ z.cOpts then 1 else 0

/-- Modelled from the spec: `Zypper::setExitCode` is declared outside `src/`;
the spec speaks of setting the exit code, a plain store read back by
`zypper.exitCode()`. -/
def Zypper.setExitCode (z : Zypper) (code : ExitCode) : Zypper :=
  { z with exitCode := code }

/-- The summary of the pending transaction (`Summary summary(God->pool())`). -/
structure Summary where
  packagesToGetAndInstall : Nat
  packagesToRemove : Nat
  needMachineReboot : Bool
  needPkgMgrRestart : Bool
  deriving DecidableEq, Repr

/-- The policy handed to `God->commit`: a default constructed
`ZYppCommitPolicy()` on which the setters `dryRun (b)` and
`syncPoolAfterCommit (b)` were or were not called (`none`: left at its
default). -/
structure ZYppCommitPolicy where
  dryRun : Option Bool
  syncPoolAfterCommit : Option Bool
  deriving DecidableEq, Repr

/-- How `God->commit` ends: with a `ZYppCommitResult` (its `_errors` list and
the text `operator<<` prints for it) or by raising one of the failures the
`catch` clauses tell apart.  For a
`RepoException` the flag says whether the refresh probe of the handler finds
`REFRESH_NEEDED` for the repository `repo_alias`. -/
inductive CommitOutcome where
  | result (errors : List String) (text : String)
  | MediaException
  | RepoException (repo_alias : String) (refresh_needed : Bool)
  | FileCheckException
  | Exception
  deriving DecidableEq, Repr

/-- One summary written to `cout`: the summary, whether the view option
`SHOW_UNSUPPORTED` was set on it and whether it was dumped as XML. -/
structure SummaryDump where
  summary : Summary
  show_unsupported : Bool
  as_xml : Bool
  deriving DecidableEq, Repr

/-- The state every procedure threads through: the `Zypper` object, the
resolver's current problem list and the record of the calls made on the
collaborators. The counters index the oracles of `Env`. -/
structure World where
  zypper : Zypper
  problems : ResolverProblemList
  resolver_calls : List ResolverCall
  solver_runs : Nat
  prompt_replies : Nat
  bool_answers : Nat
  summaries : List SummaryDump
  license_checks : Nat
  commits : List ZYppCommitPolicy
  src_installs : Nat
  deriving DecidableEq, Repr

/-- The collaborators' answers. `solver k` is what the `k`-th solver run
(`resolvePool`, `verifySystem` or `doUpgrade`) returns together with the problem
list `problems()` reports afterwards; `get_prompt_reply k` and
`read_bool_answer k` are the operator's `k`-th replies; `summary k` is the
`k`-th summary computed from the pool; `baseProduct` is the name of
`God->target()->baseProduct()`, if there is one. -/
structure Env where
  solver : Nat → Bool × ResolverProblemList
  get_prompt_reply : Nat → Nat
  read_bool_answer : Nat → Bool
  summary : Nat → Summary
  baseProduct : Option String
  confirm_licenses : Zypper → Bool × Zypper
  commit : ZYppCommitPolicy → CommitOutcome
  install_src_pkgs : Zypper → Zypper
  createSolverTestcase : String → Bool
  geteuid : Nat

/-! ## Output and collaborator primitives -/

/-- The call `zypper.out().info(text, ...)`. -/
def World.out_info (w : World) (text : String) : World :=
  { w with zypper := { w.zypper with out := w.zypper.out ++ [OutEvent.info text] } }

/-- The call `zypper.out().warning(text, ...)`. -/
def World.out_warning (w : World) (text : String) : World :=
  { w with zypper := { w.zypper with out := w.zypper.out ++ [OutEvent.warning text] } }

/-- The call `zypper.out().error(text, ...)`. -/
def World.out_error (w : World) (text : String) : World :=
  { w with zypper := { w.zypper with out := w.zypper.out ++ [OutEvent.error text] } }

/-- The call `zypper.out().prompt(id, text, popts, startdesc)`. -/
def World.out_prompt (w : World) (id : PromptId) (text : String) (popts : PromptOptions)
    (startdesc : String) : World :=
  { w with zypper :=
      { w.zypper with out := w.zypper.out ++ [OutEvent.prompt id text popts startdesc] } }

/-- The call `zypper.setExitCode(code)`. -/
def World.setExitCode (w : World) (code : ExitCode) : World :=
  { w with zypper := w.zypper.setExitCode code }

/-- A call on `God->resolver()` that returns nothing. -/
def World.resolver_call (w : World) (c : ResolverCall) : World :=
  { w with resolver_calls := w.resolver_calls ++ [c] }

/-- The reply `get_prompt_reply(zypper, id, popts)` returns at this point. -/
def World.next_reply (env : Env) (w : World) : Nat :=
  env.get_prompt_reply w.prompt_replies

/-- The state after a call of `get_prompt_reply`. -/
def World.after_reply (w : World) : World :=
  { w with prompt_replies := w.prompt_replies + 1 }

/-- The helper `indent(text, n)` of `utils/misc.h`: `n` blanks before every line. -/
def indent (text : String) (n : Nat) : String :=
  String.intercalate "\n" ((text.splitOn "\n").map (fun l => String.mk (List.replicate n ' ') ++ l))

/-- The gettext plural selection `_PL(singular, plural, n)` for the untranslated texts. -/
def _PL (singular plural : String) (n : Nat) : String :=
  if n = 1 then singular else plural

/-! ## `show_problem` -/

/-- The lines `desc_stm` collects for the solutions, numbered from `n`. -/
def solutions_text : Nat → ProblemSolutionList → String
  | _, [] => ""
  | n, s :: rest =>
    " Solution " ++ toString n ++ ": " ++ s.description ++ "\n"
      ++ (if s.details.isEmpty then "" else indent s.details 2 ++ "\n")
      ++ solutions_text (n + 1) rest

/-- The text `desc_stm` holds after the rendering loop of `show_problem`. -/
def problem_text (prob : ResolverProblem) : String :=
  "Problem: " ++ prob.description ++ "\n"
    ++ (if prob.details.isEmpty then "" else "  " ++ prob.details ++ "\n")
    ++ solutions_text 1 prob.solutions

/-- The labels `numbers` collects: "1/", "2/", ... up to `solution_count`. -/
def number_labels (solution_count : Nat) : List String :=
  (List.range solution_count).map (fun i => toString (i + 1))

/-- The prompt options `show_problem` configures: the numbered choices followed
by skip/retry/cancel (default `solution_count + 2`) when the resolver reports
more than one problem, by cancel alone (default `solution_count`) otherwise. -/
def show_problem_popts (problem_count solution_count : Nat) : PromptOptions :=
  if problem_count > 1 then
    PromptOptions.empty.setOptions (number_labels solution_count ++ ["s", "r", "c"])
      (solution_count + 2)
  else
    PromptOptions.empty.setOptions (number_labels solution_count ++ ["c"]) solution_count

/-- The prompt text `show_problem` chooses. -/
def show_problem_prompt_text (problem_count solution_count : Nat) : String :=
  if problem_count > 1 then
    _PL "Choose the above solution using '1' or skip, retry or cancel"
      "Choose from above solutions by number or skip, retry or cancel" solution_count
  else
    _PL "Choose the above solution using '1' or cancel using 'c'"
      "Choose from above solutions by number or cancel" solution_count

/-- What `show_problem` hands back: its `TriBool` return value (true: retry
solving now, false: cancel, indeterminate: continue), the `todo` list and the
state. `result = none` records that `advance (reply_i, reply)` left the
solution list, where the C++ behaviour is undefined. -/
structure ShowProblem where
  result : Option TriBool
  todo : ProblemSolutionList
  world : World

/-- The function `show_problem (zypper, prob, todo)`. -/
def show_problem (env : Env) (w : World) (prob : ResolverProblem)
    (todo : ProblemSolutionList) : ShowProblem :=
  let desc := problem_text prob
  let solutions := prob.solutions
  let problem_count := w.problems.length
  let solution_count := solutions.length
  -- without solutions, its useless to prompt
  if solutions.isEmpty then
    { result := some TriBool.false, todo := todo, world := w.out_error desc }
  else
    let prompt_text := show_problem_prompt_text problem_count solution_count
    let popts := show_problem_popts problem_count solution_count
    let w1 := w.out_prompt PromptId.PROMPT_DEP_RESOLVE prompt_text popts desc
    let reply := w1.next_reply env
    let w2 := w1.after_reply
    -- retry
    if problem_count > 1 ∧ reply = solution_count + 1 then
      { result := some TriBool.true, todo := todo, world := w2 }
    -- cancel (one problem)
    else if problem_count = 1 ∧ reply = solution_count then
      { result := some TriBool.false, todo := todo, world := w2 }
    -- cancel (more problems)
    else if problem_count > 1 ∧ reply = solution_count + 2 then
      { result := some TriBool.false, todo := todo, world := w2 }
    -- skip
    else if problem_count > 1 ∧ reply = solution_count then
      { result := some TriBool.indeterminate, todo := todo, world := w2 }
    else
      let w3 := w2.out_info ("Applying solution " ++ toString (reply + 1))
      match solutions.get? reply with
      | some solution =>
        { result := some TriBool.indeterminate, todo := todo ++ [solution], world := w3 }
      | none => { result := none, todo := todo, world := w3 }

/-! ## `show_problems` -/

/-- The short listing of the problems, one line each. -/
def list_problems : ResolverProblemList → World → World
  | [], w => w
  | p :: rest, w => list_problems rest (w.out_info ("Problem: " ++ p.description))

/-- The state of `show_problems` when its main loop is left: `retry` (`none`
when a `show_problem` call left the solution list), `todo` and the state. -/
structure ProblemLoop where
  retry : Option Bool
  todo : ProblemSolutionList
  world : World

/-- The loop `for (i = b; i != e; ++i)` of `show_problems` over the problems
still to visit. -/
def show_problems_loop (env : Env) :
    ResolverProblemList → Bool → ProblemSolutionList → World → ProblemLoop
  | [], retry, todo, w => { retry := some retry, todo := todo, world := w }
  | p :: rest, retry, todo, w =>
    let w1 := w.out_info ""
    let r := show_problem env w1 p todo
    match r.result with
    | none => { retry := none, todo := r.todo, world := r.world }
    | some stopnow =>
      if ! indeterminate stopnow then
        { retry := some (stopnow.eqBool Bool.true).toBool, todo := r.todo, world := r.world }
      else
        show_problems_loop env rest retry r.todo r.world

/-- What `show_problems` hands back: its return value (true: retry solving,
false: cancel the transaction; `none` for undefined behaviour) and the state. -/
structure ShowProblems where
  retry : Option Bool
  world : World

/-- The statements of `show_problems` between the check for an empty problem
list and the main loop: for more than one problem their number is displayed
and they are listed shortly. -/
def show_problems_listing (w : World) : World :=
  let rproblems := w.problems
  -- display the number of problems
  let w1 :=
    if rproblems.length > 1 then
      w.out_info (toString rproblems.length ++ " "
        ++ _PL "Problem:" "Problems:" rproblems.length)
    else w
  -- for many problems, list them shortly first
  if rproblems.length > 1 then list_problems rproblems w1 else w1

/-- The end of `show_problems`, after its main loop. -/
def show_problems_finish (l : ProblemLoop) : ShowProblems :=
  match l.retry with
  | none => { retry := none, world := l.world }
  | some retry =>
    if retry then
      let w3 := l.world.out_info "Resolving dependencies..."
      let w4 := w3.resolver_call (ResolverCall.applySolutions l.todo)
      { retry := some Bool.true, world := w4 }
    else
      { retry := some Bool.false, world := l.world }

/-- The function `show_problems (zypper)`. -/
def show_problems (env : Env) (w : World) : ShowProblems :=
  let rproblems := w.problems
  let todo : ProblemSolutionList := []
  if ¬ (rproblems.length > 1) ∧ rproblems.isEmpty then
    -- should not happen! If solve() failed at least one problem must be set!
    let w1 := w.out_error "Specified capability not found"
    let w2 := w1.setExitCode ExitCode.ZYPPER_EXIT_INF_CAP_NOT_FOUND
    { retry := some Bool.false, world := w2 }
  else
    let w2 := show_problems_listing w
    -- now list all problems with solution proposals
    show_problems_finish (show_problems_loop env rproblems Bool.true todo w2)

/-! ## Solver flag policy -/

/-- The function `set_force_resolution (zypper)`. -/
def set_force_resolution (w : World) : World :=
  -- don't force resolution in 'verify'
  if w.zypper.command = ZypperCommand.VERIFY then
    w.resolver_call (ResolverCall.setForceResolve Bool.false)
  else
    -- --force-resolution command line parameter value
    let force_resolution0 := w.zypper.runtimeData.force_resolution
    let force_resolution1 :=
      if w.zypper.cOpts_count "force-resolution" ≠ 0 then TriBool.true else force_resolution0
    let w1 :=
      if w.zypper.cOpts_count "no-force-resolution" ≠ 0 ∧ force_resolution1.toBool then
        w.out_warning ("--force-resolution conflicts with --no-force-resolution, "
          ++ "will use the less aggressive --no-force-resolution")
      else w
    let force_resolution2 :=
      if w.zypper.cOpts_count "no-force-resolution" ≠ 0 then TriBool.false
      else force_resolution1
    -- if --force-resolution was not specified on the command line, force
    -- the resolution by default for the install and remove commands and the
    -- rug_compatible mode. Don't force resolution in non-interactive mode
    -- and for update and dist-upgrade command (complex solver request).
    let force_resolution :=
      if indeterminate force_resolution2 then
        if ! w.zypper.globalOpts.non_interactive &&
            (w.zypper.globalOpts.is_rug_compatible ||
              decide (w.zypper.command = ZypperCommand.INSTALL) ||
              decide (w.zypper.command = ZypperCommand.REMOVE)) then
          TriBool.true
        else
          TriBool.false
      else
        force_resolution2
    -- save the setting
    let w2 : World :=
      { w1 with zypper :=
          { w1.zypper with runtimeData :=
              { w1.zypper.runtimeData with force_resolution := force_resolution } } }
    let w3 := w2.out_info
      ("Force resolution: " ++ (if force_resolution.toBool then "Yes" else "No"))
    w3.resolver_call (ResolverCall.setForceResolve force_resolution.toBool)

/-- The function `set_no_recommends (zypper)`. -/
def set_no_recommends (w : World) : World :=
  let no_recommends :=
    if w.zypper.command = ZypperCommand.REMOVE then
      -- never install recommends when removing packages
      Bool.true
    else
      -- install also recommended packages unless --no-recommends is specified
      decide (w.zypper.cOpts_count "no-recommends" ≠ 0)
  w.resolver_call (ResolverCall.setOnlyRequires no_recommends)

/-- The function `set_ignore_recommends_of_installed (zypper)`. -/
def set_ignore_recommends_of_installed (w : World) : World :=
  let ignore :=
    if w.zypper.command = ZypperCommand.DIST_UPGRADE ∨
        w.zypper.command = ZypperCommand.INSTALL_NEW_RECOMMENDS then
      Bool.false
    else Bool.true
  w.resolver_call (ResolverCall.setIgnoreAlreadyRecommended ignore)

/-- The function `set_solver_flags (zypper)`. -/
def set_solver_flags (w : World) : World :=
  set_ignore_recommends_of_installed (set_no_recommends (set_force_resolution w))

/-! ## Resolution drivers -/

/-- A solver run: whether a solution has been found, and the state afterwards. -/
structure Solved where
  success : Bool
  world : World

/-- One of the solver entry points `resolvePool`, `verifySystem`, `doUpgrade`
is called: the call is recorded, the environment says whether a solution has
been found and which problems the resolver reports from now on. -/
def World.run_solver (env : Env) (w : World) (c : ResolverCall) : Solved :=
  { success := (env.solver w.solver_runs).1
    world :=
      { w with
        resolver_calls := w.resolver_calls ++ [c]
        problems := (env.solver w.solver_runs).2
        solver_runs := w.solver_runs + 1 } }

/-- The function `resolve (zypper)`; `dump_pool` only writes debug log lines. -/
def resolve (env : Env) (w : World) : Solved :=
  (set_solver_flags w).run_solver env ResolverCall.resolvePool

/-- The function `verify (zypper)`. -/
def verify (env : Env) (w : World) : Solved :=
  ((set_solver_flags w).out_info "Verifying dependencies...").run_solver env
    ResolverCall.verifySystem

/-- The function `dist_upgrade (zypper, dup_stats)`. -/
def dist_upgrade (env : Env) (w : World) : Solved :=
  ((set_solver_flags w).out_info "Computing upgrade...").run_solver env
    ResolverCall.doUpgrade

/-- The function `make_solver_test_case (zypper)`. -/
def make_solver_test_case (env : Env) (w : World) : World :=
  let testcase_dir := "/var/log/zypper.solverTestCase"
  let w1 := w.out_info "Generating solver test case..."
  let w2 := w1.resolver_call (ResolverCall.createSolverTestcase testcase_dir)
  if env.createSolverTestcase testcase_dir then
    w2.out_info ("Solver test case generated successfully at " ++ testcase_dir ++ ".")
  else
    (w2.out_error "Error creating the solver test case.").setExitCode
      ExitCode.ZYPPER_EXIT_ERR_ZYPP

/-! ## `solve_and_commit` -/

/-- How the solving loop `while (true)` of `solve_and_commit` is left. -/
inductive SolvingExit where
  /-- The statement `break`: a solution was found, or only a test case is wanted. -/
  | go_on (w : World)
  /-- The statement `return` after the problem batch was cancelled. -/
  | returned (w : World)
  /-- A `show_problem` call advanced an iterator out of its list. -/
  | undefined_behaviour (w : World)
  /-- The loop was not left within the given number of iterations. -/
  | out_of_fuel

/-- The first statement of the solving loop: the solver entry point that fits
the command is called. -/
def call_solver (env : Env) (w : World) : Solved :=
  if w.zypper.command = ZypperCommand.VERIFY then
    verify env w
  else if w.zypper.command = ZypperCommand.DIST_UPGRADE then
    dist_upgrade env (w.out_info "Computing distribution upgrade...")
  else
    resolve env (w.out_info "Resolving package dependencies...")

/-- The loop `while (true)` under `CALL SOLVER`, run for at most `fuel` iterations. -/
def solving (env : Env) : Nat → World → SolvingExit
  | 0, _ => SolvingExit.out_of_fuel
  | fuel + 1, w =>
    let s := call_solver env w
    -- go on, we've got solution or we don't want a solution (we want testcase)
    if s.success || decide (s.world.zypper.cOpts_count "debug-solver" ≠ 0) then
      SolvingExit.go_on s.world
    else
      let p := show_problems env s.world
      match p.retry with
      | none => SolvingExit.undefined_behaviour p.world
      | some success =>
        if ! success then
          SolvingExit.returned (p.world.setExitCode ExitCode.ZYPPER_EXIT_ERR_ZYPP)
        else
          solving env fuel p.world

/-- How a run of `solve_and_commit` ends. -/
inductive Outcome where
  /-- The function returned, leaving this state. -/
  | finished (w : World)
  /-- A `show_problem` call advanced an iterator out of its list. -/
  | undefined_behaviour (w : World)
  /-- The loops were not left within the given number of iterations. -/
  | out_of_fuel

/-- The statement `if (!srcpkgs_to_install.empty()) install_src_pkgs(zypper);`
after the `try` block of `solve_and_commit`. -/
def install_pending_src_pkgs (env : Env) (w : World) : World :=
  -- install any pending source packages
  if ! w.zypper.runtimeData.srcpkgs_to_install.isEmpty then
    { w with zypper := env.install_src_pkgs w.zypper, src_installs := w.src_installs + 1 }
  else w

/-- The last statement of the `COMMIT` block: the exit code is set to 'reboot
needed' or to 'restart needed' from the summary flags. -/
def set_reboot_restart_code (summary : Summary) (w : World) : World :=
  -- set return value to 'reboot needed'
  if summary.needMachineReboot then
    (w.setExitCode ExitCode.ZYPPER_EXIT_INF_REBOOT_NEEDED).out_warning
      ("One of installed patches requires reboot of"
        ++ " your machine. Reboot as soon as possible.")
  -- set return value to 'restart needed' (restart of package manager)
  -- however, 'reboot needed' takes precedence
  else if w.zypper.exitCode ≠ ExitCode.ZYPPER_EXIT_INF_REBOOT_NEEDED ∧
      summary.needPkgMgrRestart then
    (w.setExitCode ExitCode.ZYPPER_EXIT_INF_RESTART_NEEDED).out_warning
      ("One of installed patches affects the package"
        ++ " manager itself. Run this command once more to install any other"
        ++ " needed patches.")
  else w

/-- The statements of `solve_and_commit` after the `try` block: pending source
packages are installed and the reboot / restart exit code is chosen. -/
def post_commit (env : Env) (summary : Summary) (w : World) : World :=
  set_reboot_restart_code summary (install_pending_src_pkgs env w)

/-- How the block under `COMMIT` is left: by a `return` statement
(`returned = true`) or by reaching the end of the loop body. -/
structure CommitExit where
  returned : Bool
  world : World

/-- The policy `solve_and_commit` hands to `God->commit`: a dry run when
`--dry-run` is given, otherwise a commit that syncs the pool when zypper runs
as a shell. -/
def commit_policy (z : Zypper) : ZYppCommitPolicy :=
  if z.cOpts_count "dry-run" ≠ 0 then
    { dryRun := some Bool.true, syncPoolAfterCommit := none }
  else
    { dryRun := none, syncPoolAfterCommit := some z.runningShell }

/-- The text collected in the stream `s` before `God->commit` is called. -/
def committing_text (z : Zypper) : String :=
  if z.cOpts_count "dry-run" ≠ 0 then "committing (dry run)\n" else "committing"

/-- The `try` block of `solve_and_commit` up to and including the call of
`God->commit`. -/
def call_commit (summary : Summary) (w : World) : World :=
  let w1 : World :=
    { w with zypper :=
        { w.zypper with runtimeData :=
            { w.zypper.runtimeData with
              show_media_progress_hack := Bool.true
              -- Total packages to download & install.
              commit_pkgs_total := summary.packagesToGetAndInstall
              commit_pkg_current := 0 } } }
  { (w1.out_info (committing_text w.zypper)) with
    commits := w.commits ++ [commit_policy w.zypper] }

/-- The rest of the `try` block after `God->commit` returned, or the `catch`
clause for the failure it raised, and the statements that follow them. -/
def commit_finished (env : Env) (summary : Summary) (w : World) :
    CommitOutcome → CommitExit
  | CommitOutcome.result errors text =>
    let w1 : World :=
      { w with zypper :=
          { w.zypper with runtimeData :=
              { w.zypper.runtimeData with show_media_progress_hack := Bool.false } } }
    let w2 :=
      if ! errors.isEmpty then w1.setExitCode ExitCode.ZYPPER_EXIT_ERR_ZYPP else w1
    let w3 := w2.out_info (committing_text w.zypper ++ text)
    { returned := Bool.false, world := post_commit env summary w3 }
  | CommitOutcome.MediaException =>
    let w1 := (w.out_error ("Problem retrieving the package file from the repository: "
      ++ "Please see the above error message for a hint.")).setExitCode
      ExitCode.ZYPPER_EXIT_ERR_ZYPP
    { returned := Bool.true, world := w1 }
  | CommitOutcome.RepoException repo_alias refresh_needed =>
    let hint :=
      if refresh_needed then
        "Repository '" ++ repo_alias ++ "' is out of date. Running 'zypper refresh' might help."
      else "Please see the above error message for a hint."
    let w1 := (w.out_error ("Problem retrieving the package file from the repository: "
      ++ hint)).setExitCode ExitCode.ZYPPER_EXIT_ERR_ZYPP
    { returned := Bool.true, world := w1 }
  | CommitOutcome.FileCheckException =>
    let w1 := (w.out_error ("The package integrity check failed. This may be a problem"
      ++ " with the repository or media. Try one of the following:\n"
      ++ "\n"
      ++ "- just retry previous command\n"
      ++ "- refresh the repositories using 'zypper refresh'\n"
      ++ "- use another installation medium (if e.g. damaged)\n"
      ++ "- use another repository")).setExitCode ExitCode.ZYPPER_EXIT_ERR_ZYPP
    { returned := Bool.true, world := w1 }
  | CommitOutcome.Exception =>
    let w1 := (w.out_error
      ("Problem occured during or after installation or removal of packages: "
        ++ "Please see the above error message for a hint.")).setExitCode
      ExitCode.ZYPPER_EXIT_ERR_ZYPP
    { returned := Bool.false, world := post_commit env summary w1 }

/-- The state after the call `confirm_licenses (zypper)`. -/
def World.after_licenses (env : Env) (w : World) : World :=
  { w with zypper := (env.confirm_licenses w.zypper).2, license_checks := w.license_checks + 1 }

/-- The block under `COMMIT` of `solve_and_commit`, entered with `do_commit` set. -/
def do_commit (env : Env) (summary : Summary) (w : World) : CommitExit :=
  let w0 := w.after_licenses env
  if ! (env.confirm_licenses w.zypper).1 then
    { returned := Bool.true, world := w0 }
  else
    let w1 := call_commit summary w0
    commit_finished env summary w1 (env.commit (commit_policy w0.zypper))

/-- The options of the y/n/p prompt. -/
def ynp_popts : PromptOptions :=
  (((PromptOptions.empty.setOptions ["y", "n", "p"] 0).setOptionHelp 0
    "Accept the summary and proceed with installation/removal of packages.").setOptionHelp 1
    "Cancel the operation.").setOptionHelp 2
    "Restart solver in no-force-resolution mode in order to show dependency problems."

/-- The summary is computed from the pool and written to `cout`. -/
def World.show_summary (env : Env) (w : World) : World :=
  let show_unsupported :=
    match env.baseProduct with
    | some name => decide ((name.splitOn "SUSE_SLE").length ≠ 1)
    | none => Bool.false
  { w with summaries := w.summaries ++
      [{ summary := env.summary w.summaries.length
         show_unsupported := show_unsupported
         as_xml := w.zypper.out_type_xml }] }

/-- How the section `PROMPT` is left: whether `continue` was executed, and the
locals `do_commit` and `show_forced_problems`. -/
structure PromptExit where
  continued : Bool
  do_commit : Bool
  show_forced_problems : Bool
  world : World

/-- The section `PROMPT` of `solve_and_commit`. -/
def confirm_prompt (env : Env) (summary : Summary) (show_forced_problems : Bool) (w : World) :
    PromptExit :=
  let show_p_option : Bool :=
    (decide (summary.packagesToRemove ≠ 0) &&
      (decide (w.zypper.command = ZypperCommand.INSTALL) ||
        decide (w.zypper.command = ZypperCommand.UPDATE)))
    || (decide (summary.packagesToGetAndInstall ≠ 0) &&
      decide (w.zypper.command = ZypperCommand.REMOVE))
  if (w.zypper.runtimeData.force_resolution.andBool show_p_option).toBool then
    let w1 := w.out_prompt PromptId.PROMPT_YN_INST_REMOVE_CONTINUE "Continue?" ynp_popts ""
    let reply := w1.next_reply env
    let w2 := w1.after_reply
    if reply = 2 then
      -- one more solver solver run with force-resoltion off
      let w3 : World :=
        { w2 with zypper :=
            { w2.zypper with runtimeData :=
                { w2.zypper.runtimeData with force_resolution := TriBool.false } } }
      -- undo solver changes before retrying
      let w4 := w3.resolver_call ResolverCall.undo
      { continued := Bool.true, do_commit := Bool.false
        show_forced_problems := show_forced_problems, world := w4 }
    else if reply = 1 then
      { continued := Bool.false, do_commit := Bool.false
        show_forced_problems := Bool.false, world := w2 }
    else
      { continued := Bool.false, do_commit := Bool.true
        show_forced_problems := Bool.false, world := w2 }
  -- no dependency problems
  else
    let answer := env.read_bool_answer w.bool_answers
    let w1 : World := { w with bool_answers := w.bool_answers + 1 }
    { continued := Bool.false, do_commit := answer
      show_forced_problems := Bool.false, world := w1 }

/-- How the body of the loop `do ... while (show_forced_problems)` is left. -/
inductive BodyExit where
  /-- A `return` statement. -/
  | returned (w : World)
  /-- The `break` statement. -/
  | broke (w : World)
  /-- The end of the body or the `continue` statement: the loop condition
  `show_forced_problems` is tested next. -/
  | next (show_forced_problems : Bool) (w : World)
  /-- A `show_problem` call advanced an iterator out of its list. -/
  | undefined_behaviour (w : World)
  /-- The solving loop was not left within the given number of iterations. -/
  | out_of_fuel

/-- The notice shown for `verify` before the actions that repair the system. -/
def broken_dependencies_notice (w : World) : World :=
  if w.zypper.command = ZypperCommand.VERIFY then
    w.out_info ("Some of the dependencies of installed packages are broken."
      ++ " In order to fix these dependencies, the following actions need to be taken:")
  else w

/-- The loop body of `solve_and_commit` from the test of `--debug-solver` on:
the sections `SHOW SUMMARY`, `PROMPT` and `COMMIT`. -/
def after_solving (env : Env) (show_forced_problems : Bool) (w : World) : BodyExit :=
  if w.zypper.cOpts_count "debug-solver" ≠ 0 then
    BodyExit.returned (make_solver_test_case env w)
  else
    -- SHOW SUMMARY
    let summary := env.summary w.summaries.length
    let w2 := w.show_summary env
    if summary.packagesToGetAndInstall ≠ 0 ∨ summary.packagesToRemove ≠ 0 ∨
        ¬ w2.zypper.runtimeData.srcpkgs_to_install.isEmpty then
      let w3 := broken_dependencies_notice w2
      -- check root user
      if w3.zypper.command = ZypperCommand.VERIFY ∧ env.geteuid ≠ 0 ∧
          ¬ w3.zypper.globalOpts.changedRoot then
        BodyExit.returned
          ((w3.out_error
            "Root privileges are required to fix broken package dependencies.").setExitCode
            ExitCode.ZYPPER_EXIT_ERR_PRIVILEGES)
      else
        -- PROMPT
        let p := confirm_prompt env summary show_forced_problems w3
        if p.continued then
          BodyExit.next p.show_forced_problems p.world
        -- COMMIT
        else if p.do_commit then
          let c := do_commit env summary p.world
          if c.returned then BodyExit.returned c.world
          else BodyExit.next p.show_forced_problems c.world
        else
          BodyExit.next p.show_forced_problems p.world
    -- noting to do
    else
      let w3 :=
        if w2.zypper.command = ZypperCommand.VERIFY then
          w2.out_info "Dependencies of all installed packages are satisfied."
        else
          w2.out_info "Nothing to do."
      BodyExit.broke w3

/-- The body of the loop `do ... while (show_forced_problems)`; the solving loop
inside is run for at most `fuel` iterations. -/
def loop_body (env : Env) (fuel : Nat) (show_forced_problems : Bool) (w : World) : BodyExit :=
  -- CALL SOLVER
  -- e.g. doUpdate unsets this flag, no need for another solving
  let solved :=
    if w.zypper.runtimeData.solve_before_commit then solving env fuel w
    else SolvingExit.go_on w
  match solved with
  | SolvingExit.out_of_fuel => BodyExit.out_of_fuel
  | SolvingExit.undefined_behaviour w1 => BodyExit.undefined_behaviour w1
  | SolvingExit.returned w1 => BodyExit.returned w1
  | SolvingExit.go_on w1 => after_solving env show_forced_problems w1

/-- The loop `do ... while (show_forced_problems)` of `solve_and_commit`, entered
at the top of its body with the given value of the local `show_forced_problems`
and run for at most `fuel` iterations (the solving loop inside gets the
iterations that are left). The local `commit_done` is written but never read. -/
def solve_and_commit_loop (env : Env) : Nat → Bool → World → Outcome
  | 0, _, _ => Outcome.out_of_fuel
  | fuel + 1, show_forced_problems, w =>
    match loop_body env fuel show_forced_problems w with
    | BodyExit.out_of_fuel => Outcome.out_of_fuel
    | BodyExit.undefined_behaviour w1 => Outcome.undefined_behaviour w1
    | BodyExit.returned w1 => Outcome.finished w1
    | BodyExit.broke w1 => Outcome.finished w1
    | BodyExit.next show_forced_problems1 w1 =>
      if show_forced_problems1 then solve_and_commit_loop env fuel show_forced_problems1 w1
      else Outcome.finished w1

/-- The function `solve_and_commit (zypper)`, its loops bounded by `fuel`; the
local `show_forced_problems` starts as true. -/
def solve_and_commit (env : Env) (fuel : Nat) (w : World) : Outcome :=
  solve_and_commit_loop env fuel Bool.true w

/-! ## Notions used to state the properties -/

/-- The state in which the solving loop was left, if it was. -/
def SolvingExit.world? : SolvingExit → Option World
  | SolvingExit.go_on w => some w
  | SolvingExit.returned w => some w
  | SolvingExit.undefined_behaviour w => some w
  | SolvingExit.out_of_fuel => none

/-- The state in which the loop body was left, if it was. -/
def BodyExit.world? : BodyExit → Option World
  | BodyExit.returned w => some w
  | BodyExit.broke w => some w
  | BodyExit.next _ w => some w
  | BodyExit.undefined_behaviour w => some w
  | BodyExit.out_of_fuel => none

/-- What a state `wf` reached from `w` tells about `commit`: it was not called
in between, or `wf` is the state in which the `COMMIT` block, entered for the
summary shown last, was left. -/
def commit_trace (env : Env) (w wf : World) : Prop :=
  wf.commits = w.commits ∨
    ∃ w1 d, w1.commits = w.commits ∧ w1.summaries.getLast? = some d ∧
      wf = (do_commit env d.summary w1).world

/-- The property `commit_trace` for the state in which the loop body is left;
when the loop is to be repeated, `commit` was not called. -/
def BodyExit.commit_trace (env : Env) (w : World) : BodyExit → Prop
  | BodyExit.returned wf => SolveCommit.commit_trace env w wf
  | BodyExit.broke wf => SolveCommit.commit_trace env w wf
  | BodyExit.next show_forced_problems wf =>
    SolveCommit.commit_trace env w wf ∧
      (show_forced_problems = Bool.true → wf.commits = w.commits)
  | BodyExit.undefined_behaviour _ => True
  | BodyExit.out_of_fuel => True

/-- The state in which a run of `solve_and_commit` returned, if it did. -/
def Outcome.world? : Outcome → Option World
  | Outcome.finished w => some w
  | _ => none

/-- The process exit code a run of `solve_and_commit` leaves, if it returned. -/
def Outcome.exitCode? (o : Outcome) : Option ExitCode :=
  o.world?.map (fun w => w.zypper.exitCode)

/-- The reference definition of the value handed to `setForceResolve`, in the
words of the specification: false for verify; otherwise false when
`--no-force-resolution` is given; otherwise true when `--force-resolution` is
given; otherwise the cached runtime value when it is true or false; otherwise
true exactly when the run is interactive and the command is install or remove
or the compatibility mode is on. -/
def force_resolution_spec (z : Zypper) : Bool :=
  if z.command = ZypperCommand.VERIFY then Bool.false
  else if "no-force-resolution" ∈ z.cOpts then Bool.false
  else if "force-resolution" ∈ z.cOpts then Bool.true
  else
    match z.runtimeData.force_resolution with
    | TriBool.true => Bool.true
    | TriBool.false => Bool.false
    | TriBool.indeterminate =>
      decide (z.globalOpts.non_interactive = Bool.false ∧
        (z.command = ZypperCommand.INSTALL ∨ z.command = ZypperCommand.REMOVE ∨
          z.globalOpts.is_rug_compatible = Bool.true))

/-- The solutions the operator selects in a batch: for each problem in list
order the solution its reply names, nothing when the reply names none.  The
reply to the first problem is `replies k`. -/
def selected_solutions (replies : Nat → Nat) : Nat → ResolverProblemList → ProblemSolutionList
  | _, [] => []
  | k, p :: rest =>
    (match p.solutions.get? (replies k) with
      | some solution => [solution]
      | none => [])
      ++ selected_solutions replies (k + 1) rest

/-- The problems shown in dependency prompts so far: the description text of
every `PROMPT_DEP_RESOLVE` prompt, in the order they were shown. -/
def dep_prompts : List OutEvent → List String
  | [] => []
  | OutEvent.prompt PromptId.PROMPT_DEP_RESOLVE _ _ startdesc :: rest =>
    startdesc :: dep_prompts rest
  | _ :: rest => dep_prompts rest

/-- The number of confirmation prompts (`PROMPT_YN_INST_REMOVE_CONTINUE`) shown
through `zypper.out()` so far. -/
def confirm_prompts : List OutEvent → Nat
  | [] => 0
  | OutEvent.prompt PromptId.PROMPT_YN_INST_REMOVE_CONTINUE _ _ _ :: rest =>
    confirm_prompts rest + 1
  | _ :: rest => confirm_prompts rest

/-- The part of the state that the dependency problem dialogue leaves alone:
everything but the output sent to `zypper.out()` and the number of replies read. -/
def World.frame (w : World) : World :=
  { w with zypper := { w.zypper with out := [] }, prompt_replies := 0 }

/-- The part of the state that the solving phase (solver runs and problem
dialogues) leaves alone: everything but the output, the exit code, the cached
force-resolution value and the record of the resolver and prompt traffic. -/
def World.solving_frame (w : World) : World :=
  { w with
    zypper :=
      { w.zypper with
        out := []
        exitCode := ExitCode.ZYPPER_EXIT_OK
        runtimeData :=
          { w.zypper.runtimeData with force_resolution := TriBool.indeterminate } }
    problems := []
    resolver_calls := []
    solver_runs := 0
    prompt_replies := 0 }

/-- The state in which a run returned, or `w` when it did not. -/
def Outcome.worldD (o : Outcome) (w : World) : World :=
  match o with
  | Outcome.finished wf => wf
  | _ => w

/-- The condition under which `show_problem` gets past its reply decoding to the
solution-selection step (`advance (reply_i, reply)` and `todo.push_back`): none
of the guards of the four `return` statements before it holds. -/
def reaches_selection (problem_count solution_count reply : Nat) : Prop :=
  ¬ (problem_count > 1 ∧ reply = solution_count + 1) ∧
  ¬ (problem_count = 1 ∧ reply = solution_count) ∧
  ¬ (problem_count > 1 ∧ reply = solution_count + 2) ∧
  ¬ (problem_count > 1 ∧ reply = solution_count)

instance (problem_count solution_count reply : Nat) :
    Decidable (reaches_selection problem_count solution_count reply) := by
  unfold reaches_selection
  exact inferInstance

/-- The summary computed in the loop body of `solve_and_commit` when the section
`CALL SOLVER` is left in state `w1`. -/
def shown_summary (env : Env) (w1 : World) : Summary :=
  env.summary w1.summaries.length

/-- How the section `PROMPT` is left in the iteration that leaves `CALL SOLVER`
in state `w1`, with the local `show_forced_problems` still set. -/
def prompt_exit (env : Env) (w1 : World) : PromptExit :=
  confirm_prompt env (shown_summary env w1) Bool.true
    (broken_dependencies_notice (w1.show_summary env))

/-- The state in which the `try` block of that iteration is entered: the licences
were asked for after the `PROMPT` section. -/
def try_entry (env : Env) (w1 : World) : World :=
  (prompt_exit env w1).world.after_licenses env

/-- The state in which the `try` block is left when `God->commit`, called in state
`w`, returned a result: the progress hack is switched off, the exit code is set
for a non-empty error list and the result is printed. -/
def commit_result_state (w : World) (errors : List String) (text : String) : World :=
  let w1 : World :=
    { w with zypper :=
        { w.zypper with runtimeData :=
            { w.zypper.runtimeData with show_media_progress_hack := Bool.false } } }
  let w2 :=
    if ! errors.isEmpty then w1.setExitCode ExitCode.ZYPPER_EXIT_ERR_ZYPP else w1
  w2.out_info (committing_text w.zypper ++ text)

/-- The state in which the choice of the reboot / restart exit code starts in
that iteration when `commit` returned a result: after the `try` block, pending
source packages were installed. -/
def pre_selection_state (env : Env) (w1 : World) (errors : List String) (text : String) :
    World :=
  install_pending_src_pkgs env
    (commit_result_state (call_commit (shown_summary env w1) (try_entry env w1)) errors text)

/-! ## Concrete data used to exercise the statements -/

/-- A first sample solution. -/
def sol1 : ProblemSolution := { description := "remove package X", details := "" }

/-- A second sample solution. -/
def sol2 : ProblemSolution := { description := "downgrade package Y", details := "" }

/-- A sample problem with two solutions. -/
def prob2 : ResolverProblem :=
  { description := "X conflicts with Y", details := "", solutions := [sol1, sol2] }

/-- A sample problem with one solution. -/
def prob1 : ResolverProblem :=
  { description := "Z requires W", details := "", solutions := [sol2] }

/-- A sample `Zypper` object: an interactive `install` without options. -/
def zypper0 : Zypper :=
  { command := ZypperCommand.INSTALL
    cOpts := []
    globalOpts :=
      { non_interactive := Bool.false, is_rug_compatible := Bool.false, changedRoot := Bool.false }
    runtimeData :=
      { force_resolution := TriBool.indeterminate
        solve_before_commit := Bool.true
        srcpkgs_to_install := []
        show_media_progress_hack := Bool.false
        commit_pkgs_total := 0
        commit_pkg_current := 0 }
    exitCode := ExitCode.ZYPPER_EXIT_OK
    runningShell := Bool.false
    out_type_xml := Bool.false
    out := [] }

/-- A sample state in which the resolver reports the given problems. -/
def world0 (problems : ResolverProblemList) : World :=
  { zypper := zypper0
    problems := problems
    resolver_calls := []
    solver_runs := 0
    prompt_replies := 0
    bool_answers := 0
    summaries := []
    license_checks := 0
    commits := []
    src_installs := 0 }

/-- A sample environment: every solver run fails with the given problems, the
operator's replies are given by `replies`, nothing is to be installed. -/
def env0 (problems : ResolverProblemList) (replies : Nat → Nat) : Env :=
  { solver := fun _ => (Bool.false, problems)
    get_prompt_reply := replies
    read_bool_answer := fun _ => Bool.true
    summary := fun _ =>
      { packagesToGetAndInstall := 0, packagesToRemove := 0
        needMachineReboot := Bool.false, needPkgMgrRestart := Bool.false }
    baseProduct := none
    confirm_licenses := fun z => (Bool.true, z)
    commit := fun _ => CommitOutcome.result [] ""
    install_src_pkgs := fun z => z
    createSolverTestcase := fun _ => Bool.true
    geteuid := 0 }

/-- A sample environment in which the first solver run succeeds, the operator
answers yes, and `commit` returns a result with the given error list; the
summary lists one package to install and the given reboot / restart flags. -/
def env_commit (reboot restart : Bool) (errors : List String) : Env :=
  { solver := fun _ => (Bool.true, [])
    get_prompt_reply := fun _ => 0
    read_bool_answer := fun _ => Bool.true
    summary := fun _ =>
      { packagesToGetAndInstall := 1, packagesToRemove := 0
        needMachineReboot := reboot, needPkgMgrRestart := restart }
    baseProduct := none
    confirm_licenses := fun z => (Bool.true, z)
    commit := fun _ => CommitOutcome.result errors ""
    install_src_pkgs := fun z => z
    createSolverTestcase := fun _ => Bool.true
    geteuid := 0 }

/-- A sample environment for `zypper install --force-resolution`: every solver
run succeeds, the summary lists one package to install and one to remove, and
the operator answers 'p' (show problems) at the first y/n/p prompt and 'n' at
the second. -/
def env_show_problems : Env :=
  { solver := fun _ => (Bool.true, [])
    get_prompt_reply := fun k => if k = 0 then 2 else 1
    read_bool_answer := fun _ => Bool.false
    summary := fun _ =>
      { packagesToGetAndInstall := 1, packagesToRemove := 1
        needMachineReboot := Bool.false, needPkgMgrRestart := Bool.false }
    baseProduct := none
    confirm_licenses := fun z => (Bool.true, z)
    commit := fun _ => CommitOutcome.result [] ""
    install_src_pkgs := fun z => z
    createSolverTestcase := fun _ => Bool.true
    geteuid := 0 }

/-- The sample state for `zypper install --force-resolution`. -/
def world_forced : World :=
  { world0 [] with zypper := { zypper0 with cOpts := ["force-resolution"] } }

/-- A sample environment like `env_commit`, in which `commit` ends the given way. -/
def env_commit_outcome (reboot restart : Bool) (o : CommitOutcome) : Env :=
  { env_commit reboot restart [] with commit := fun _ => o }

/-- A sample state of an install with one pending source package. -/
def world_srcpkgs : World :=
  { world0 [] with
    zypper :=
      { zypper0 with
        runtimeData := { zypper0.runtimeData with srcpkgs_to_install := ["foo-src"] } } }

/-! ## Supporting lemmas: the dependency problem dialogue -/

theorem isEmpty_false_of_length {α : Type} (l : List α) (h : 1 ≤ l.length) :
    l.isEmpty = Bool.false := by
  cases l with
  | nil => simp at h
  | cons a l => rfl

theorem dep_prompts_append (a b : List OutEvent) :
    dep_prompts (a ++ b) = dep_prompts a ++ dep_prompts b := by
  induction a with
  | nil => rfl
  | cons e rest ih =>
    cases e with
    | prompt id text popts startdesc => cases id <;> simp [dep_prompts, ih]
    | info text => simp [dep_prompts, ih]
    | warning text => simp [dep_prompts, ih]
    | error text => simp [dep_prompts, ih]

theorem confirm_prompts_append (a b : List OutEvent) :
    confirm_prompts (a ++ b) = confirm_prompts a + confirm_prompts b := by
  induction a with
  | nil => simp [confirm_prompts]
  | cons e rest ih =>
    cases e with
    | prompt id text popts startdesc => cases id <;> simp [confirm_prompts, ih]; omega
    | info text => simp [confirm_prompts, ih]
    | warning text => simp [confirm_prompts, ih]
    | error text => simp [confirm_prompts, ih]

theorem frame_resolver_calls {w w' : World} (h : w'.frame = w.frame) :
    w'.resolver_calls = w.resolver_calls := by
  have := congrArg World.resolver_calls h
  exact this

theorem frame_problems {w w' : World} (h : w'.frame = w.frame) :
    w'.problems = w.problems := by
  have := congrArg World.problems h
  exact this

/-- The function `show_problem` touches nothing but the output and the reply counter. -/
theorem show_problem_frame (env : Env) (w : World) (prob : ResolverProblem)
    (todo : ProblemSolutionList) :
    (show_problem env w prob todo).world.frame = w.frame := by
  unfold show_problem
  simp only []
  split_ifs <;> try rfl
  split <;> rfl

theorem show_problems_loop_frame (env : Env) (ps : ResolverProblemList) :
    ∀ (retry : Bool) (todo : ProblemSolutionList) (w : World),
      (show_problems_loop env ps retry todo w).world.frame = w.frame := by
  induction ps with
  | nil => intro retry todo w; rfl
  | cons p rest ih =>
    intro retry todo w
    have h1 : (show_problem env (w.out_info "") p todo).world.frame = w.frame :=
      (show_problem_frame env (w.out_info "") p todo).trans rfl
    simp only [show_problems_loop]
    split
    · exact h1
    · split_ifs
      · exact h1
      · exact (ih _ _ _).trans h1

theorem list_problems_frame (ps : ResolverProblemList) :
    ∀ w : World, (list_problems ps w).frame = w.frame := by
  induction ps with
  | nil => intro w; rfl
  | cons p rest ih => intro w; exact (ih _).trans rfl

theorem show_problems_listing_frame (w : World) :
    (show_problems_listing w).frame = w.frame := by
  unfold show_problems_listing
  simp only []
  split_ifs
  · exact (list_problems_frame _ _).trans rfl
  · rfl

theorem list_problems_io (ps : ResolverProblemList) :
    ∀ w : World, (list_problems ps w).prompt_replies = w.prompt_replies ∧
      dep_prompts (list_problems ps w).zypper.out = dep_prompts w.zypper.out ∧
      confirm_prompts (list_problems ps w).zypper.out = confirm_prompts w.zypper.out := by
  induction ps with
  | nil => intro w; exact ⟨rfl, rfl, rfl⟩
  | cons p rest ih =>
    intro w
    obtain ⟨h1, h2, h3⟩ := ih (w.out_info ("Problem: " ++ p.description))
    refine ⟨h1, ?_, ?_⟩
    · simp only [list_problems]
      rw [h2]
      simp [World.out_info, dep_prompts_append, dep_prompts]
    · simp only [list_problems]
      rw [h3]
      simp [World.out_info, confirm_prompts_append, confirm_prompts]

theorem show_problems_listing_io (w : World) :
    (show_problems_listing w).prompt_replies = w.prompt_replies ∧
      dep_prompts (show_problems_listing w).zypper.out = dep_prompts w.zypper.out ∧
      confirm_prompts (show_problems_listing w).zypper.out = confirm_prompts w.zypper.out := by
  unfold show_problems_listing
  simp only []
  split_ifs
  · obtain ⟨h1, h2, h3⟩ := list_problems_io w.problems
      (w.out_info (toString w.problems.length ++ " "
        ++ _PL "Problem:" "Problems:" w.problems.length))
    refine ⟨h1, ?_, ?_⟩
    · rw [h2]; simp [World.out_info, dep_prompts_append, dep_prompts]
    · rw [h3]; simp [World.out_info, confirm_prompts_append, confirm_prompts]
  · exact ⟨rfl, rfl, rfl⟩

/-- A reply that names a solution, or the skip value of the multi-problem
layout, makes `show_problem` continue with the next problem. -/
theorem show_problem_continue (env : Env) (w : World) (prob : ResolverProblem)
    (todo : ProblemSolutionList) (hN : 1 ≤ prob.solutions.length)
    (hr : env.get_prompt_reply w.prompt_replies < prob.solutions.length ∨
      (1 < w.problems.length ∧ env.get_prompt_reply w.prompt_replies = prob.solutions.length)) :
    (show_problem env w prob todo).result = some TriBool.indeterminate ∧
    (show_problem env w prob todo).todo =
      todo ++ selected_solutions env.get_prompt_reply w.prompt_replies [prob] ∧
    (show_problem env w prob todo).world.prompt_replies = w.prompt_replies + 1 ∧
    dep_prompts (show_problem env w prob todo).world.zypper.out =
      dep_prompts w.zypper.out ++ [problem_text prob] := by
  have hne := isEmpty_false_of_length prob.solutions hN
  rcases hr with hlt | ⟨hP, heq⟩
  · have h0 : env.get_prompt_reply w.prompt_replies ≠ prob.solutions.length := by omega
    have h1 : env.get_prompt_reply w.prompt_replies ≠ prob.solutions.length + 1 := by omega
    have h2 : env.get_prompt_reply w.prompt_replies ≠ prob.solutions.length + 2 := by omega
    have hs : prob.solutions[env.get_prompt_reply w.prompt_replies]? =
        some (prob.solutions.get ⟨_, hlt⟩) := by
      simp [List.getElem?_eq_getElem hlt]
    simp [show_problem, hne, World.next_reply, World.out_prompt, World.after_reply, h0, h1, h2,
      hs, World.out_info, selected_solutions, dep_prompts_append, dep_prompts]
  · have hP1 : w.problems.length ≠ 1 := by omega
    simp [show_problem, hne, World.next_reply, World.out_prompt, World.after_reply, heq, hP, hP1,
      selected_solutions, dep_prompts_append, dep_prompts]

/-- The main loop of `show_problems` visits every problem when each reply names
a solution or is the skip value. -/
theorem show_problems_loop_continue (env : Env) (ps : ResolverProblemList) :
    ∀ (retry : Bool) (todo : ProblemSolutionList) (w : World),
      (∀ p ∈ ps, 1 ≤ p.solutions.length) →
      (∀ (i : Nat) (hi : i < ps.length),
        env.get_prompt_reply (w.prompt_replies + i) < (ps.get ⟨i, hi⟩).solutions.length ∨
          (1 < w.problems.length ∧
            env.get_prompt_reply (w.prompt_replies + i) = (ps.get ⟨i, hi⟩).solutions.length)) →
      (show_problems_loop env ps retry todo w).retry = some retry ∧
      (show_problems_loop env ps retry todo w).todo =
        todo ++ selected_solutions env.get_prompt_reply w.prompt_replies ps ∧
      (show_problems_loop env ps retry todo w).world.prompt_replies =
        w.prompt_replies + ps.length ∧
      dep_prompts (show_problems_loop env ps retry todo w).world.zypper.out =
        dep_prompts w.zypper.out ++ ps.map problem_text := by
  induction ps with
  | nil => intro retry todo w _ _; simp [show_problems_loop, selected_solutions]
  | cons p rest ih =>
    intro retry todo w hsol hr
    have hp := hsol p (List.mem_cons_self _ _)
    have hr0 := hr 0 (by simp)
    simp only [Nat.add_zero, List.get_eq_getElem, List.getElem_cons_zero] at hr0
    obtain ⟨h1, h2, h3, h4⟩ := show_problem_continue env (w.out_info "") p todo hp hr0
    have hfr := show_problem_frame env (w.out_info "") p todo
    have hprob : (show_problem env (w.out_info "") p todo).world.problems = w.problems :=
      frame_problems hfr
    have hrest : ∀ (i : Nat) (hi : i < rest.length),
        env.get_prompt_reply ((show_problem env (w.out_info "") p todo).world.prompt_replies + i)
            < (rest.get ⟨i, hi⟩).solutions.length ∨
          (1 < (show_problem env (w.out_info "") p todo).world.problems.length ∧
            env.get_prompt_reply
                ((show_problem env (w.out_info "") p todo).world.prompt_replies + i)
              = (rest.get ⟨i, hi⟩).solutions.length) := by
      intro i hi
      have := hr (i + 1) (by simpa using hi)
      rw [h3, hprob]
      have e : (w.out_info "").prompt_replies + 1 + i = w.prompt_replies + (i + 1) := by
        show w.prompt_replies + 1 + i = w.prompt_replies + (i + 1)
        omega
      rw [e]
      simpa using this
    obtain ⟨g1, g2, g3, g4⟩ := ih retry _ _
      (fun q hq => hsol q (List.mem_cons_of_mem _ hq)) hrest
    have step : show_problems_loop env (p :: rest) retry todo w =
        show_problems_loop env rest retry (show_problem env (w.out_info "") p todo).todo
          (show_problem env (w.out_info "") p todo).world := by
      simp [show_problems_loop, h1, indeterminate]
    rw [step]
    refine ⟨g1, ?_, ?_, ?_⟩
    · rw [g2, h2, h3]
      simp [selected_solutions, World.out_info]
    · rw [g3, h3]
      show w.prompt_replies + 1 + rest.length = w.prompt_replies + (rest.length + 1)
      omega
    · rw [g4, h4]
      simp [World.out_info, dep_prompts_append, dep_prompts]

/-! ## Supporting lemmas: solver flags, the solving loop and the commit block -/

theorem cOpts_count_ne_zero (z : Zypper) (key : String) :
    z.cOpts_count key ≠ 0 ↔ key ∈ z.cOpts := by
  unfold Zypper.cOpts_count
  split_ifs with h <;> simp [h]

theorem frame_solving_frame {w w' : World} (h : w'.frame = w.frame) :
    w'.solving_frame = w.solving_frame := by
  have := congrArg World.solving_frame h
  exact this

theorem show_problem_confirm_prompts (env : Env) (w : World) (prob : ResolverProblem)
    (todo : ProblemSolutionList) :
    confirm_prompts (show_problem env w prob todo).world.zypper.out
      = confirm_prompts w.zypper.out := by
  unfold show_problem
  simp only []
  split_ifs <;>
    try simp [World.out_error, World.out_prompt, World.after_reply, confirm_prompts_append,
      confirm_prompts]
  split <;>
    simp [World.out_info, World.out_prompt, World.after_reply, confirm_prompts_append,
      confirm_prompts]

theorem show_problems_loop_confirm_prompts (env : Env) (ps : ResolverProblemList) :
    ∀ (retry : Bool) (todo : ProblemSolutionList) (w : World),
      confirm_prompts (show_problems_loop env ps retry todo w).world.zypper.out
        = confirm_prompts w.zypper.out := by
  induction ps with
  | nil => intro retry todo w; rfl
  | cons p rest ih =>
    intro retry todo w
    have h1 : confirm_prompts (show_problem env (w.out_info "") p todo).world.zypper.out
        = confirm_prompts w.zypper.out := by
      rw [show_problem_confirm_prompts]
      simp [World.out_info, confirm_prompts_append, confirm_prompts]
    simp only [show_problems_loop]
    split
    · exact h1
    · split_ifs
      · exact h1
      · exact (ih _ _ _).trans h1

/-- The function `show_problems` leaves the solving frame alone and shows no
confirmation prompt. -/
theorem show_problems_solving_frame (env : Env) (w : World) :
    (show_problems env w).world.solving_frame = w.solving_frame ∧
    confirm_prompts (show_problems env w).world.zypper.out = confirm_prompts w.zypper.out := by
  unfold show_problems
  simp only []
  split
  · exact ⟨rfl, by simp [World.setExitCode, World.out_error, Zypper.setExitCode,
      confirm_prompts_append, confirm_prompts]⟩
  · have hfr := frame_solving_frame
      ((show_problems_loop_frame env w.problems Bool.true [] (show_problems_listing w)).trans
        (show_problems_listing_frame w))
    have hcp := (show_problems_loop_confirm_prompts env w.problems Bool.true []
      (show_problems_listing w)).trans (show_problems_listing_io w).2.2
    generalize show_problems_loop env w.problems Bool.true [] (show_problems_listing w) = l
      at hfr hcp ⊢
    unfold show_problems_finish
    split
    · exact ⟨hfr, hcp⟩
    · split_ifs
      · refine ⟨hfr, ?_⟩
        simp [World.resolver_call, World.out_info, confirm_prompts_append, confirm_prompts, hcp]
      · exact ⟨hfr, hcp⟩

theorem set_force_resolution_solving_frame (w : World) :
    (set_force_resolution w).solving_frame = w.solving_frame ∧
    confirm_prompts (set_force_resolution w).zypper.out = confirm_prompts w.zypper.out := by
  unfold set_force_resolution
  by_cases hv : w.zypper.command = ZypperCommand.VERIFY
  · rw [if_pos hv]; exact ⟨rfl, rfl⟩
  · rw [if_neg hv]
    simp only []
    by_cases hc : w.zypper.cOpts_count "no-force-resolution" ≠ 0 ∧
        (if w.zypper.cOpts_count "force-resolution" ≠ 0 then TriBool.true
          else w.zypper.runtimeData.force_resolution).toBool = Bool.true
    · rw [if_pos hc]
      refine ⟨rfl, ?_⟩
      simp [World.resolver_call, World.out_info, World.out_warning, confirm_prompts_append,
        confirm_prompts]
    · rw [if_neg hc]
      refine ⟨rfl, ?_⟩
      simp [World.resolver_call, World.out_info, confirm_prompts_append, confirm_prompts]

theorem set_solver_flags_solving_frame (w : World) :
    (set_solver_flags w).solving_frame = w.solving_frame ∧
    confirm_prompts (set_solver_flags w).zypper.out = confirm_prompts w.zypper.out := by
  obtain ⟨h1, h2⟩ := set_force_resolution_solving_frame w
  exact ⟨h1, h2⟩

/-- A solver run leaves the solving frame alone and shows no confirmation prompt. -/
theorem call_solver_solving_frame (env : Env) (w : World) :
    (call_solver env w).world.solving_frame = w.solving_frame ∧
    confirm_prompts (call_solver env w).world.zypper.out = confirm_prompts w.zypper.out := by
  unfold call_solver verify dist_upgrade resolve
  split_ifs
  · obtain ⟨h1, h2⟩ := set_solver_flags_solving_frame w
    refine ⟨h1, ?_⟩
    simp [World.run_solver, World.out_info, confirm_prompts_append, confirm_prompts, h2]
  · obtain ⟨h1, h2⟩ := set_solver_flags_solving_frame (w.out_info "Computing distribution upgrade...")
    refine ⟨h1, ?_⟩
    simp [World.run_solver, World.out_info, confirm_prompts_append, confirm_prompts, h2]
    simp [World.out_info, confirm_prompts_append, confirm_prompts] at h2
    exact h2
  · obtain ⟨h1, h2⟩ := set_solver_flags_solving_frame (w.out_info "Resolving package dependencies...")
    refine ⟨h1, ?_⟩
    simp [World.run_solver]
    simp [World.out_info, confirm_prompts_append, confirm_prompts] at h2
    exact h2

theorem solving_frame_cOpts {w w' : World} (h : w'.solving_frame = w.solving_frame) :
    w'.zypper.cOpts = w.zypper.cOpts := by
  have := congrArg (fun x : World => x.zypper.cOpts) h
  exact this

/-- The solving loop leaves the solving frame alone and shows no confirmation prompt. -/
theorem solving_solving_frame (env : Env) :
    ∀ (fuel : Nat) (w : World), ∀ w1 ∈ (solving env fuel w).world?,
      w1.solving_frame = w.solving_frame ∧
      confirm_prompts w1.zypper.out = confirm_prompts w.zypper.out := by
  intro fuel
  induction fuel with
  | zero => intro w w1 h; simp [solving, SolvingExit.world?] at h
  | succ fuel ih =>
    intro w w1 h
    obtain ⟨c1, c2⟩ := call_solver_solving_frame env w
    obtain ⟨p1, p2⟩ := show_problems_solving_frame env (call_solver env w).world
    simp only [solving] at h
    split_ifs at h with hgo
    · simp only [SolvingExit.world?, Option.mem_def, Option.some.injEq] at h
      subst h
      exact ⟨c1, c2⟩
    · split at h
      · simp only [SolvingExit.world?, Option.mem_def, Option.some.injEq] at h
        subst h
        exact ⟨p1.trans c1, p2.trans c2⟩
      · split_ifs at h
        · simp only [SolvingExit.world?, Option.mem_def, Option.some.injEq] at h
          subst h
          exact ⟨p1.trans c1, by
            simp only [World.setExitCode, Zypper.setExitCode]
            exact p2.trans c2⟩
        · obtain ⟨i1, i2⟩ := ih _ w1 h
          exact ⟨i1.trans (p1.trans c1), i2.trans (p2.trans c2)⟩

theorem solving_frame_commits {w w' : World} (h : w'.solving_frame = w.solving_frame) :
    w'.commits = w.commits := by
  have := congrArg World.commits h
  exact this

theorem solving_frame_summaries {w w' : World} (h : w'.solving_frame = w.solving_frame) :
    w'.summaries = w.summaries := by
  have := congrArg World.summaries h
  exact this

theorem confirm_prompt_world (env : Env) (summary : Summary) (sfp : Bool) (w : World) :
    (confirm_prompt env summary sfp w).world.commits = w.commits ∧
    (confirm_prompt env summary sfp w).world.summaries = w.summaries := by
  unfold confirm_prompt
  simp only []
  split_ifs <;> exact ⟨rfl, rfl⟩

theorem confirm_prompt_flag (env : Env) (summary : Summary) (sfp : Bool) (w : World)
    (h : (confirm_prompt env summary sfp w).continued = Bool.false) :
    (confirm_prompt env summary sfp w).show_forced_problems = Bool.false := by
  unfold confirm_prompt at h ⊢
  simp only [] at h ⊢
  split_ifs at h ⊢ <;> rfl

theorem summary_notice_world (env : Env) (w : World) :
    (broken_dependencies_notice (w.show_summary env)).commits = w.commits ∧
    ∃ d, (broken_dependencies_notice (w.show_summary env)).summaries.getLast? = some d ∧
      d.summary = env.summary w.summaries.length := by
  unfold broken_dependencies_notice
  split_ifs <;>
    exact ⟨rfl, _, List.getLast?_concat _, rfl⟩

theorem after_solving_commit_trace (env : Env) (sfp : Bool) (w : World) :
    (after_solving env sfp w).commit_trace env w := by
  unfold after_solving
  simp only []
  obtain ⟨n1, d, n2, n3⟩ := summary_notice_world env w
  rw [← n3]
  obtain ⟨c1, c2⟩ := confirm_prompt_world env d.summary sfp
    (broken_dependencies_notice (w.show_summary env))
  split_ifs with h1 h2 h3 h4 h5 h6
  · left
    unfold make_solver_test_case
    simp only []
    split_ifs <;> rfl
  · left
    exact n1
  · exact ⟨Or.inl (c1.trans n1), fun _ => c1.trans n1⟩
  · right
    exact ⟨_, _, c1.trans n1, c2 ▸ n2, rfl⟩
  · refine ⟨Or.inr ⟨_, _, c1.trans n1, c2 ▸ n2, rfl⟩, ?_⟩
    intro hs
    rw [confirm_prompt_flag env d.summary sfp _ (by simpa using h4)] at hs
    exact absurd hs (by decide)
  · exact ⟨Or.inl (c1.trans n1), fun _ => c1.trans n1⟩
  · left; rfl
  · left; rfl

theorem commit_trace_of_commits_eq (env : Env) {w w1 : World} (h : w1.commits = w.commits)
    (e : BodyExit) (he : e.commit_trace env w1) : e.commit_trace env w := by
  have key : ∀ wf, commit_trace env w1 wf → commit_trace env w wf := by
    intro wf hwf
    rcases hwf with h1 | ⟨w2, d, h2, h3, h4⟩
    · exact Or.inl (h1.trans h)
    · exact Or.inr ⟨w2, d, h2.trans h, h3, h4⟩
  cases e with
  | returned wf => exact key wf he
  | broke wf => exact key wf he
  | next s wf => exact ⟨key wf he.1, fun hs => (he.2 hs).trans h⟩
  | undefined_behaviour wf => trivial
  | out_of_fuel => trivial

theorem loop_body_commit_trace (env : Env) (fuel : Nat) (sfp : Bool) (w : World) :
    (loop_body env fuel sfp w).commit_trace env w := by
  unfold loop_body
  simp only []
  by_cases hs : w.zypper.runtimeData.solve_before_commit = Bool.true
  · rw [if_pos hs]
    have hfr := solving_solving_frame env fuel w
    cases hsv : solving env fuel w with
    | out_of_fuel => trivial
    | undefined_behaviour w1 => trivial
    | returned w1 =>
      have := (hfr w1 (by rw [hsv]; rfl)).1
      exact Or.inl (solving_frame_commits this)
    | go_on w1 =>
      have hc := solving_frame_commits (hfr w1 (by rw [hsv]; rfl)).1
      exact commit_trace_of_commits_eq env hc _ (after_solving_commit_trace env sfp w1)
  · rw [if_neg hs]
    exact after_solving_commit_trace env sfp w

/-- A run of the outer loop that returns either never called `commit`, or ends
in the state in which the `COMMIT` block, entered for the summary shown last,
was left. -/
theorem solve_and_commit_loop_commit_trace (env : Env) :
    ∀ (fuel : Nat) (sfp : Bool) (w wf : World),
      solve_and_commit_loop env fuel sfp w = Outcome.finished wf → commit_trace env w wf := by
  intro fuel
  induction fuel with
  | zero => intro sfp w wf h; simp [solve_and_commit_loop] at h
  | succ fuel ih =>
    intro sfp w wf h
    have hb := loop_body_commit_trace env fuel sfp w
    simp only [solve_and_commit_loop] at h
    cases hbody : loop_body env fuel sfp w with
    | out_of_fuel => rw [hbody] at h; simp at h
    | undefined_behaviour w1 => rw [hbody] at h; simp at h
    | returned w1 =>
      rw [hbody] at h hb
      simp only [Outcome.finished.injEq] at h
      subst h
      exact hb
    | broke w1 =>
      rw [hbody] at h hb
      simp only [Outcome.finished.injEq] at h
      subst h
      exact hb
    | next s w1 =>
      rw [hbody] at h hb
      simp only [] at h
      split_ifs at h with hs
      · have h1 := ih s w1 wf h
        have hc := hb.2 hs
        rcases h1 with h1 | ⟨w2, d, h2, h3, h4⟩
        · exact Or.inl (h1.trans hc)
        · exact Or.inr ⟨w2, d, h2.trans hc, h3, h4⟩
      · simp only [Outcome.finished.injEq] at h
        subst h
        exact hb.1

theorem set_reboot_restart_code_exit (summary : Summary) (w : World) :
    (summary.needMachineReboot = Bool.true →
      (set_reboot_restart_code summary w).zypper.exitCode
        = ExitCode.ZYPPER_EXIT_INF_REBOOT_NEEDED) ∧
    ((set_reboot_restart_code summary w).zypper.exitCode
        = ExitCode.ZYPPER_EXIT_INF_RESTART_NEEDED →
      w.zypper.exitCode ≠ ExitCode.ZYPPER_EXIT_INF_RESTART_NEEDED →
      summary.needPkgMgrRestart = Bool.true ∧ summary.needMachineReboot = Bool.false) ∧
    (set_reboot_restart_code summary w).summaries = w.summaries := by
  unfold set_reboot_restart_code
  split_ifs with h1 h2
  · refine ⟨fun _ => rfl, fun h => ?_, rfl⟩
    simp [World.setExitCode, World.out_warning, Zypper.setExitCode] at h
  · refine ⟨fun h => absurd h h1, fun _ _ => ⟨h2.2, by simpa using h1⟩, rfl⟩
  · exact ⟨fun h => absurd h h1, fun h h3 => absurd h h3, rfl⟩

theorem post_commit_world (env : Env) (summary : Summary) (w : World) :
    (post_commit env summary w).commits = w.commits ∧
    (post_commit env summary w).summaries = w.summaries := by
  unfold post_commit set_reboot_restart_code install_pending_src_pkgs
  split_ifs <;> exact ⟨rfl, rfl⟩

theorem commit_finished_world (env : Env) (summary : Summary) (w : World) (o : CommitOutcome) :
    (commit_finished env summary w o).world.commits = w.commits ∧
    (commit_finished env summary w o).world.summaries = w.summaries := by
  cases o with
  | result errors text =>
    simp only [commit_finished]
    obtain ⟨h1, h2⟩ := post_commit_world env summary
      ((if (! errors.isEmpty) = Bool.true then
          World.setExitCode
            { w with zypper :=
                { w.zypper with runtimeData :=
                    { w.zypper.runtimeData with show_media_progress_hack := Bool.false } } }
            ExitCode.ZYPPER_EXIT_ERR_ZYPP
        else
          { w with zypper :=
              { w.zypper with runtimeData :=
                  { w.zypper.runtimeData with show_media_progress_hack := Bool.false } } }).out_info
        (committing_text w.zypper ++ text))
    rw [h1, h2]
    split_ifs <;> exact ⟨rfl, rfl⟩
  | MediaException => exact ⟨rfl, rfl⟩
  | RepoException a r => exact ⟨rfl, rfl⟩
  | FileCheckException => exact ⟨rfl, rfl⟩
  | Exception =>
    simp only [commit_finished]
    obtain ⟨h1, h2⟩ := post_commit_world env summary
      ((w.out_error
        ("Problem occured during or after installation or removal of packages: "
          ++ "Please see the above error message for a hint.")).setExitCode
        ExitCode.ZYPPER_EXIT_ERR_ZYPP)
    rw [h1, h2]
    exact ⟨rfl, rfl⟩

/-- The `COMMIT` block either does not call `commit`, or calls it once; when the
call returns a result the block ends with the choice of the reboot / restart
exit code. -/
theorem do_commit_cases (env : Env) (summary : Summary) (w : World) :
    (do_commit env summary w).world.summaries = w.summaries ∧
    ((do_commit env summary w).world.commits = w.commits ∨
      ∃ policy, (do_commit env summary w).world.commits = w.commits ++ [policy] ∧
        ∀ errors text, env.commit policy = CommitOutcome.result errors text →
          (do_commit env summary w).returned = Bool.false ∧
          ∃ wb, (do_commit env summary w).world = set_reboot_restart_code summary wb) := by
  unfold do_commit
  simp only []
  split_ifs with hl
  · exact ⟨rfl, Or.inl rfl⟩
  · obtain ⟨h1, h2⟩ := commit_finished_world env summary
      (call_commit summary (w.after_licenses env))
      (env.commit (commit_policy (w.after_licenses env).zypper))
    refine ⟨h2, Or.inr ⟨commit_policy (w.after_licenses env).zypper, h1, ?_⟩⟩
    intro errors text hres
    rw [hres]
    exact ⟨rfl, _, rfl⟩

theorem solving_frame_fields {w w1 : World} (h : w1.solving_frame = w.solving_frame) :
    w1.summaries = w.summaries ∧ w1.bool_answers = w.bool_answers ∧
    w1.commits = w.commits ∧ w1.license_checks = w.license_checks ∧
    w1.src_installs = w.src_installs := by
  refine ⟨?_, ?_, ?_, ?_, ?_⟩
  · have := congrArg World.summaries h; exact this
  · have := congrArg World.bool_answers h; exact this
  · have := congrArg World.commits h; exact this
  · have := congrArg World.license_checks h; exact this
  · have := congrArg World.src_installs h; exact this

/-! ## Supporting lemmas: default replies, offered options and commit failures -/

theorem number_labels_length (n : Nat) : (number_labels n).length = n := by
  simp [number_labels]

/-- The default reply `show_problem` configures on its prompt makes it cancel. -/
theorem show_problem_default_reply (env : Env) (w : World) (prob : ResolverProblem)
    (todo : ProblemSolutionList) (hN : 1 ≤ prob.solutions.length)
    (hP : 1 ≤ w.problems.length)
    (hr : env.get_prompt_reply w.prompt_replies
      = (show_problem_popts w.problems.length prob.solutions.length).default_opt) :
    (show_problem env w prob todo).result = some TriBool.false ∧
    (show_problem env w prob todo).todo = todo ∧
    OutEvent.prompt PromptId.PROMPT_DEP_RESOLVE
        (show_problem_prompt_text w.problems.length prob.solutions.length)
        (show_problem_popts w.problems.length prob.solutions.length)
        (problem_text prob) ∈ (show_problem env w prob todo).world.zypper.out := by
  have hne := isEmpty_false_of_length prob.solutions hN
  by_cases hm : 1 < w.problems.length
  · have h1 : w.problems.length ≠ 1 := by omega
    simp only [show_problem_popts, gt_iff_lt, hm, if_true, PromptOptions.setOptions] at hr
    simp [show_problem, hne, World.next_reply, World.out_prompt, World.after_reply, hr, hm, h1]
  · have h1 : w.problems.length = 1 := by omega
    simp only [show_problem_popts, gt_iff_lt, hm, if_false, PromptOptions.setOptions] at hr
    simp [show_problem, hne, World.next_reply, World.out_prompt, World.after_reply, hr, h1]

/-- The main loop of `show_problems` gets past a prefix of problems whose replies
name a solution or are the skip value. -/
theorem show_problems_loop_prefix (env : Env) (pre : ResolverProblemList) :
    ∀ (rest : ResolverProblemList) (retry : Bool) (todo : ProblemSolutionList) (w : World),
      (∀ p ∈ pre, 1 ≤ p.solutions.length) →
      (∀ (i : Nat) (hi : i < pre.length),
        env.get_prompt_reply (w.prompt_replies + i) < (pre.get ⟨i, hi⟩).solutions.length ∨
          (1 < w.problems.length ∧
            env.get_prompt_reply (w.prompt_replies + i) = (pre.get ⟨i, hi⟩).solutions.length)) →
      ∃ todo1 w1,
        show_problems_loop env (pre ++ rest) retry todo w
          = show_problems_loop env rest retry todo1 w1 ∧
        w1.frame = w.frame ∧ w1.prompt_replies = w.prompt_replies + pre.length := by
  induction pre with
  | nil => intro rest retry todo w _ _; exact ⟨todo, w, rfl, rfl, rfl⟩
  | cons p pre1 ih =>
    intro rest retry todo w hsol hr
    have hp := hsol p (List.mem_cons_self _ _)
    have hr0 := hr 0 (by simp)
    simp only [Nat.add_zero, List.get_eq_getElem, List.getElem_cons_zero] at hr0
    obtain ⟨h1, _, h3, _⟩ := show_problem_continue env (w.out_info "") p todo hp hr0
    have hfr : (show_problem env (w.out_info "") p todo).world.frame = w.frame :=
      (show_problem_frame env (w.out_info "") p todo).trans rfl
    have hprob : (show_problem env (w.out_info "") p todo).world.problems = w.problems :=
      frame_problems hfr
    have hrest : ∀ (i : Nat) (hi : i < pre1.length),
        env.get_prompt_reply ((show_problem env (w.out_info "") p todo).world.prompt_replies + i)
            < (pre1.get ⟨i, hi⟩).solutions.length ∨
          (1 < (show_problem env (w.out_info "") p todo).world.problems.length ∧
            env.get_prompt_reply
                ((show_problem env (w.out_info "") p todo).world.prompt_replies + i)
              = (pre1.get ⟨i, hi⟩).solutions.length) := by
      intro i hi
      have := hr (i + 1) (by simpa using hi)
      rw [h3, hprob]
      have e : (w.out_info "").prompt_replies + 1 + i = w.prompt_replies + (i + 1) := by
        show w.prompt_replies + 1 + i = w.prompt_replies + (i + 1)
        omega
      rw [e]
      simpa using this
    obtain ⟨todo1, w1, g1, g2, g3⟩ := ih rest retry _ _
      (fun q hq => hsol q (List.mem_cons_of_mem _ hq)) hrest
    have step : show_problems_loop env (p :: pre1 ++ rest) retry todo w =
        show_problems_loop env (pre1 ++ rest) retry
          (show_problem env (w.out_info "") p todo).todo
          (show_problem env (w.out_info "") p todo).world := by
      simp [show_problems_loop, h1, indeterminate]
    refine ⟨todo1, w1, step.trans g1, g2.trans hfr, ?_⟩
    rw [g3, h3]
    show w.prompt_replies + 1 + pre1.length = w.prompt_replies + (pre1.length + 1)
    omega

/-- When the `COMMIT` block calls `commit`, it does so with the policy computed
after the licences were confirmed, and it ends the way `commit` ended. -/
theorem do_commit_called (env : Env) (summary : Summary) (w : World)
    (policy : ZYppCommitPolicy)
    (h : (do_commit env summary w).world.commits = w.commits ++ [policy]) :
    policy = commit_policy (w.after_licenses env).zypper ∧
    do_commit env summary w
      = commit_finished env summary (call_commit summary (w.after_licenses env))
          (env.commit policy) := by
  unfold do_commit at h ⊢
  simp only [] at h ⊢
  split_ifs at h ⊢ with hl
  · have : w.commits = w.commits ++ [policy] := h
    simp at this
  · have hc := (commit_finished_world env summary (call_commit summary (w.after_licenses env))
      (env.commit (commit_policy (w.after_licenses env).zypper))).1
    rw [hc] at h
    have hp : commit_policy (w.after_licenses env).zypper = policy := by
      have h2 : w.commits ++ [commit_policy (w.after_licenses env).zypper]
          = w.commits ++ [policy] := h
      simpa using h2
    exact ⟨hp.symm, by rw [hp]⟩


theorem set_reboot_restart_code_src_installs (summary : Summary) (w : World) :
    (set_reboot_restart_code summary w).src_installs = w.src_installs := by
  unfold set_reboot_restart_code
  split_ifs <;> rfl

theorem confirm_prompt_do_commit (env : Env) (summary : Summary) (sfp : Bool) (w : World)
    (h : (confirm_prompt env summary sfp w).do_commit = Bool.true) :
    (confirm_prompt env summary sfp w).continued = Bool.false ∧
    (confirm_prompt env summary sfp w).show_forced_problems = Bool.false := by
  unfold confirm_prompt at h ⊢
  simp only [] at h ⊢
  split_ifs at h ⊢ <;> exact ⟨rfl, rfl⟩

theorem broken_dependencies_notice_zypper (w : World) :
    (broken_dependencies_notice w).zypper.command = w.zypper.command ∧
    (broken_dependencies_notice w).zypper.globalOpts = w.zypper.globalOpts := by
  unfold broken_dependencies_notice
  split_ifs <;> exact ⟨rfl, rfl⟩

/-- The iteration of the loop body that gets to the call of `commit` is the last
one: `solve_and_commit` returns in the state in which the `COMMIT` block is left. -/
theorem solve_and_commit_reaches_commit (env : Env) (fuel : Nat) (w w1 : World)
    (hgo : (if w.zypper.runtimeData.solve_before_commit then solving env fuel w
      else SolvingExit.go_on w) = SolvingExit.go_on w1)
    (hdebug : w1.zypper.cOpts_count "debug-solver" = 0)
    (htodo : (shown_summary env w1).packagesToGetAndInstall ≠ 0 ∨
      (shown_summary env w1).packagesToRemove ≠ 0 ∨
      w1.zypper.runtimeData.srcpkgs_to_install.isEmpty = Bool.false)
    (hroot : ¬ (w1.zypper.command = ZypperCommand.VERIFY ∧ env.geteuid ≠ 0 ∧
      w1.zypper.globalOpts.changedRoot = Bool.false))
    (hprompt : (prompt_exit env w1).do_commit = Bool.true)
    (hlic : (env.confirm_licenses (prompt_exit env w1).world.zypper).1 = Bool.true) :
    solve_and_commit env (fuel + 1) w =
      Outcome.finished
        (commit_finished env (shown_summary env w1)
          (call_commit (shown_summary env w1) (try_entry env w1))
          (env.commit (commit_policy (try_entry env w1).zypper))).world := by
  obtain ⟨hc, hs⟩ := confirm_prompt_do_commit env (shown_summary env w1) Bool.true
    (broken_dependencies_notice (w1.show_summary env)) hprompt
  obtain ⟨n1, n2⟩ := broken_dependencies_notice_zypper (w1.show_summary env)
  have hdo : do_commit env (shown_summary env w1) (prompt_exit env w1).world =
      commit_finished env (shown_summary env w1)
        (call_commit (shown_summary env w1) (try_entry env w1))
        (env.commit (commit_policy (try_entry env w1).zypper)) := by
    unfold do_commit
    simp only [hlic]
    rfl
  have hbody : after_solving env Bool.true w1 =
      (if (do_commit env (shown_summary env w1) (prompt_exit env w1).world).returned then
        BodyExit.returned (do_commit env (shown_summary env w1) (prompt_exit env w1).world).world
      else
        BodyExit.next Bool.false
          (do_commit env (shown_summary env w1) (prompt_exit env w1).world).world) := by
    have hd : ¬ w1.zypper.cOpts_count "debug-solver" ≠ 0 := by simp [hdebug]
    have ht : (env.summary w1.summaries.length).packagesToGetAndInstall ≠ 0 ∨
        (env.summary w1.summaries.length).packagesToRemove ≠ 0 ∨
        ¬ (w1.show_summary env).zypper.runtimeData.srcpkgs_to_install.isEmpty = Bool.true := by
      rcases htodo with h | h | h
      · exact Or.inl h
      · exact Or.inr (Or.inl h)
      · refine Or.inr (Or.inr ?_)
        show ¬ w1.zypper.runtimeData.srcpkgs_to_install.isEmpty = Bool.true
        rw [h]; decide
    have hr : ¬ ((broken_dependencies_notice (w1.show_summary env)).zypper.command
          = ZypperCommand.VERIFY ∧ env.geteuid ≠ 0 ∧
        ¬ (broken_dependencies_notice (w1.show_summary env)).zypper.globalOpts.changedRoot
          = Bool.true) := by
      rw [n1, n2]
      intro h
      exact hroot ⟨h.1, h.2.1, by simpa using h.2.2⟩
    have hcont : ¬ (confirm_prompt env (env.summary w1.summaries.length) Bool.true
        (broken_dependencies_notice (w1.show_summary env))).continued = Bool.true := by
      have : (confirm_prompt env (env.summary w1.summaries.length) Bool.true
        (broken_dependencies_notice (w1.show_summary env))).continued = Bool.false := hc
      rw [this]; decide
    have hdc : (confirm_prompt env (env.summary w1.summaries.length) Bool.true
        (broken_dependencies_notice (w1.show_summary env))).do_commit = Bool.true := hprompt
    have hsf : (confirm_prompt env (env.summary w1.summaries.length) Bool.true
        (broken_dependencies_notice (w1.show_summary env))).show_forced_problems
        = Bool.false := hs
    unfold after_solving
    simp only []
    rw [if_neg hd, if_pos ht, if_neg hr, if_neg hcont, if_pos hdc, hsf]
    rfl
  have hloop : loop_body env fuel Bool.true w
      = after_solving env Bool.true w1 := by
    unfold loop_body
    simp only []
    rw [hgo]
  rw [← hdo]
  unfold solve_and_commit
  simp only [solve_and_commit_loop, hloop, hbody]
  split_ifs <;> rfl

theorem set_reboot_restart_code_formula (summary : Summary) (w : World) :
    (set_reboot_restart_code summary w).zypper.exitCode =
      (if summary.needMachineReboot then ExitCode.ZYPPER_EXIT_INF_REBOOT_NEEDED
        else if w.zypper.exitCode ≠ ExitCode.ZYPPER_EXIT_INF_REBOOT_NEEDED ∧
            summary.needPkgMgrRestart then ExitCode.ZYPPER_EXIT_INF_RESTART_NEEDED
        else w.zypper.exitCode) := by
  unfold set_reboot_restart_code
  split_ifs <;> rfl

/-! ## The claims -/

/-- C1: in `show_problem`, for a problem with N >= 1 solutions shown while the
resolver reports more than one problem, and for every todo list: reply N returns
indeterminate (skip), reply N+1 returns true (retry) and reply N+2 returns
false (cancel); in all three cases the todo list is left unchanged. -/
theorem show_problem_skip_retry_cancel (env : Env) (w : World) (prob : ResolverProblem)
    (todo : ProblemSolutionList) (hN : 1 ≤ prob.solutions.length)
    (hP : 1 < w.problems.length) :
    (env.get_prompt_reply w.prompt_replies = prob.solutions.length →
      (show_problem env w prob todo).result = some TriBool.indeterminate ∧
        (show_problem env w prob todo).todo = todo) ∧
    (env.get_prompt_reply w.prompt_replies = prob.solutions.length + 1 →
      (show_problem env w prob todo).result = some TriBool.true ∧
        (show_problem env w prob todo).todo = todo) ∧
    (env.get_prompt_reply w.prompt_replies = prob.solutions.length + 2 →
      (show_problem env w prob todo).result = some TriBool.false ∧
        (show_problem env w prob todo).todo = todo) := by
  have hne := isEmpty_false_of_length prob.solutions hN
  have hP1 : w.problems.length ≠ 1 := by omega
  refine ⟨fun h => ?_, fun h => ?_, fun h => ?_⟩ <;>
    simp [show_problem, hne, World.next_reply, World.out_prompt, World.after_reply, h, hP, hP1]

/-- Witness for C1: two problems reported, a problem with two solutions and a
todo list holding one entry; replies 2, 3 and 4 skip, retry and cancel. -/
theorem show_problem_skip_retry_cancel_witness :
    ((show_problem (env0 [] (fun _ => 2)) (world0 [prob2, prob1]) prob2 [sol1]).result
        = some TriBool.indeterminate ∧
      (show_problem (env0 [] (fun _ => 2)) (world0 [prob2, prob1]) prob2 [sol1]).todo = [sol1]) ∧
    ((show_problem (env0 [] (fun _ => 3)) (world0 [prob2, prob1]) prob2 [sol1]).result
        = some TriBool.true ∧
      (show_problem (env0 [] (fun _ => 3)) (world0 [prob2, prob1]) prob2 [sol1]).todo = [sol1]) ∧
    ((show_problem (env0 [] (fun _ => 4)) (world0 [prob2, prob1]) prob2 [sol1]).result
        = some TriBool.false ∧
      (show_problem (env0 [] (fun _ => 4)) (world0 [prob2, prob1]) prob2 [sol1]).todo = [sol1]) :=
  ⟨(show_problem_skip_retry_cancel (env0 [] (fun _ => 2)) (world0 [prob2, prob1]) prob2 [sol1]
      (by decide) (by decide)).1 rfl,
   (show_problem_skip_retry_cancel (env0 [] (fun _ => 3)) (world0 [prob2, prob1]) prob2 [sol1]
      (by decide) (by decide)).2.1 rfl,
   (show_problem_skip_retry_cancel (env0 [] (fun _ => 4)) (world0 [prob2, prob1]) prob2 [sol1]
      (by decide) (by decide)).2.2 rfl⟩

/-- C2: in `show_problem`, for a problem with N >= 1 solutions shown while the
resolver reports exactly one problem, the prompt shown offers the N numbered
options and 'c' only, and for every reply r <= N the outcome is either cancel (r = N,
result false, todo unchanged) or apply-solution-r (r < N, solution r appended
to todo, result indeterminate); the result is never true (retry) and never a
skip that leaves todo unchanged. -/
theorem show_problem_single_apply_or_cancel (env : Env) (w : World) (prob : ResolverProblem)
    (todo : ProblemSolutionList) (hN : 1 ≤ prob.solutions.length)
    (hP : w.problems.length = 1)
    (hr : env.get_prompt_reply w.prompt_replies ≤ prob.solutions.length) :
    OutEvent.prompt PromptId.PROMPT_DEP_RESOLVE
        (show_problem_prompt_text 1 prob.solutions.length)
        { options := number_labels prob.solutions.length ++ ["c"]
          default_opt := prob.solutions.length, help := [] }
        (problem_text prob) ∈ (show_problem env w prob todo).world.zypper.out ∧
    ((env.get_prompt_reply w.prompt_replies = prob.solutions.length ∧
        (show_problem env w prob todo).result = some TriBool.false ∧
        (show_problem env w prob todo).todo = todo) ∨
      (env.get_prompt_reply w.prompt_replies < prob.solutions.length ∧
        ∃ solution, prob.solutions.get? (env.get_prompt_reply w.prompt_replies) = some solution ∧
          (show_problem env w prob todo).result = some TriBool.indeterminate ∧
          (show_problem env w prob todo).todo = todo ++ [solution])) ∧
    (show_problem env w prob todo).result ≠ some TriBool.true ∧
    ¬ ((show_problem env w prob todo).result = some TriBool.indeterminate ∧
        (show_problem env w prob todo).todo = todo) := by
  have hne := isEmpty_false_of_length prob.solutions hN
  rcases Nat.lt_or_eq_of_le hr with hlt | heq
  · have hne1 : env.get_prompt_reply w.prompt_replies ≠ prob.solutions.length := by omega
    obtain ⟨s, hs⟩ : ∃ s, prob.solutions.get? (env.get_prompt_reply w.prompt_replies) = some s :=
      ⟨prob.solutions.get ⟨_, hlt⟩, List.get?_eq_get hlt⟩
    have hs1 : prob.solutions[env.get_prompt_reply w.prompt_replies]? = some s := by
      simpa using hs
    refine ⟨by simp [show_problem, hne, World.next_reply, World.out_prompt, World.after_reply,
      hP, hne1, hs1, World.out_info, show_problem_popts, PromptOptions.setOptions], ?_⟩
    have key : (show_problem env w prob todo).result = some TriBool.indeterminate ∧
        (show_problem env w prob todo).todo = todo ++ [s] := by
      simp [show_problem, hne, World.next_reply, World.out_prompt, World.after_reply, hP, hne1,
        hs1, World.out_info]
    refine ⟨Or.inr ⟨hlt, s, hs, key.1, key.2⟩, ?_, ?_⟩
    · rw [key.1]; decide
    · rw [key.2]; simp
  · have key : (show_problem env w prob todo).result = some TriBool.false ∧
        (show_problem env w prob todo).todo = todo := by
      simp [show_problem, hne, World.next_reply, World.out_prompt, World.after_reply, hP, heq]
    refine ⟨by simp [show_problem, hne, World.next_reply, World.out_prompt, World.after_reply,
      hP, heq, show_problem_popts, PromptOptions.setOptions], ?_⟩
    refine ⟨Or.inl ⟨heq, key.1, key.2⟩, ?_, ?_⟩
    · rw [key.1]; decide
    · rw [key.1]; simp

/-- Witness for C2: one problem with two solutions reported alone; reply 2
(= N) is neither a retry nor a skip, the prompt offers "1", "2" and "c". -/
theorem show_problem_single_apply_or_cancel_witness :
    (1 ≤ prob2.solutions.length ∧ (world0 [prob2]).problems.length = 1 ∧
      (env0 [] (fun _ => 2)).get_prompt_reply (world0 [prob2]).prompt_replies
        ≤ prob2.solutions.length) ∧
    (show_problem (env0 [] (fun _ => 2)) (world0 [prob2]) prob2 [sol1]).result
      ≠ some TriBool.true ∧
    ¬ ((show_problem (env0 [] (fun _ => 2)) (world0 [prob2]) prob2 [sol1]).result
        = some TriBool.indeterminate ∧
      (show_problem (env0 [] (fun _ => 2)) (world0 [prob2]) prob2 [sol1]).todo = [sol1]) :=
  ⟨by decide,
    (show_problem_single_apply_or_cancel (env0 [] (fun _ => 2)) (world0 [prob2]) prob2 [sol1]
      (by decide) (by decide) (by decide)).2.2⟩

/-- C3: `show_problems` calls the resolver's `applySolutions` if and only if it
returns true (retry): the calls it makes on the resolver are one
`applySolutions` call when it returns true and none at all otherwise, whatever
the problem list and the operator's replies are. -/
theorem show_problems_applies_iff_retry (env : Env) (w : World) :
    ∃ todo, (show_problems env w).world.resolver_calls =
      w.resolver_calls ++
        (if (show_problems env w).retry = some Bool.true then
          [ResolverCall.applySolutions todo] else []) := by
  unfold show_problems
  simp only []
  split
  · exact ⟨[], by simp [World.setExitCode, World.out_error]⟩
  · have hl := frame_resolver_calls
      ((show_problems_loop_frame env w.problems Bool.true [] (show_problems_listing w)).trans
        (show_problems_listing_frame w))
    generalize show_problems_loop env w.problems Bool.true [] (show_problems_listing w) = l
      at hl ⊢
    refine ⟨l.todo, ?_⟩
    unfold show_problems_finish
    split
    · simp [hl]
    · split_ifs <;> simp_all [World.resolver_call, World.out_info]

/-- C4: for a batch of P >= 1 problems that each have at least one solution and
replies that each name a solution (r_i < N_i) or, when P > 1, are the skip
value (r_i = N_i): `show_problems` prompts for every problem in list order,
returns true (retry) and calls `applySolutions` exactly once, with exactly the
selected solutions in problem order. -/
theorem show_problems_retry_with_selected (env : Env) (w : World)
    (hP : 1 ≤ w.problems.length)
    (hsol : ∀ p ∈ w.problems, 1 ≤ p.solutions.length)
    (hr : ∀ (i : Nat) (hi : i < w.problems.length),
      env.get_prompt_reply (w.prompt_replies + i) < (w.problems.get ⟨i, hi⟩).solutions.length ∨
        (1 < w.problems.length ∧
          env.get_prompt_reply (w.prompt_replies + i)
            = (w.problems.get ⟨i, hi⟩).solutions.length)) :
    (show_problems env w).retry = some Bool.true ∧
    (show_problems env w).world.resolver_calls =
      w.resolver_calls ++
        [ResolverCall.applySolutions
          (selected_solutions env.get_prompt_reply w.prompt_replies w.problems)] ∧
    (show_problems env w).world.prompt_replies = w.prompt_replies + w.problems.length ∧
    dep_prompts (show_problems env w).world.zypper.out =
      dep_prompts w.zypper.out ++ w.problems.map problem_text := by
  have hne : w.problems.isEmpty = Bool.false := isEmpty_false_of_length _ hP
  obtain ⟨i1, i2, _⟩ := show_problems_listing_io w
  have hfr := show_problems_listing_frame w
  have hprob : (show_problems_listing w).problems = w.problems := frame_problems hfr
  have hr2 : ∀ (i : Nat) (hi : i < w.problems.length),
      env.get_prompt_reply ((show_problems_listing w).prompt_replies + i)
          < (w.problems.get ⟨i, hi⟩).solutions.length ∨
        (1 < (show_problems_listing w).problems.length ∧
          env.get_prompt_reply ((show_problems_listing w).prompt_replies + i)
            = (w.problems.get ⟨i, hi⟩).solutions.length) := by
    intro i hi
    rw [i1, hprob]
    exact hr i hi
  obtain ⟨g1, g2, g3, g4⟩ := show_problems_loop_continue env w.problems Bool.true []
    (show_problems_listing w) hsol hr2
  have hcalls := frame_resolver_calls
    ((show_problems_loop_frame env w.problems Bool.true [] (show_problems_listing w)).trans hfr)
  simp only [show_problems, hne, show_problems_finish, g1]
  simp [World.resolver_call, World.out_info, hcalls, g2, g3, g4, i1, i2, dep_prompts_append,
    dep_prompts]

/-- Witness for C4: with two problems, skipping the first (reply 2 = N1) and
selecting the first solution of the second gives the one-entry list; with a
single problem, reply 0 gives retry and the list holding its first solution. -/
theorem show_problems_retry_with_selected_witness :
    (show_problems (env0 [] (fun k => if k = 0 then 2 else 0))
        (world0 [prob2, prob1])).world.resolver_calls
      = [ResolverCall.applySolutions [sol2]] ∧
    (show_problems (env0 [] (fun _ => 0)) (world0 [prob2])).retry = some Bool.true ∧
    (show_problems (env0 [] (fun _ => 0)) (world0 [prob2])).world.resolver_calls
      = [ResolverCall.applySolutions [sol1]] :=
  ⟨(show_problems_retry_with_selected (env0 [] (fun k => if k = 0 then 2 else 0))
      (world0 [prob2, prob1]) (by decide) (by decide) (by decide)).2.1,
   (show_problems_retry_with_selected (env0 [] (fun _ => 0)) (world0 [prob2])
      (by decide) (by decide) (by decide)).1,
   (show_problems_retry_with_selected (env0 [] (fun _ => 0)) (world0 [prob2])
      (by decide) (by decide) (by decide)).2.1⟩

/-- C5: the value `set_force_resolution` passes to the resolver's
`setForceResolve` is the one the reference definition `force_resolution_spec`
gives, for every command, option set and cached runtime value; when the command
is not verify the same value is stored back as the cached runtime value (for
verify the cached value is left as it is). -/
theorem set_force_resolution_refines_spec (w : World) :
    (set_force_resolution w).resolver_calls =
      w.resolver_calls ++ [ResolverCall.setForceResolve (force_resolution_spec w.zypper)] ∧
    (set_force_resolution w).zypper.runtimeData.force_resolution =
      (if w.zypper.command = ZypperCommand.VERIFY then w.zypper.runtimeData.force_resolution
        else TriBool.ofBool (force_resolution_spec w.zypper)) := by
  unfold set_force_resolution force_resolution_spec
  by_cases hv : w.zypper.command = ZypperCommand.VERIFY
  · simp [hv, World.resolver_call]
  · by_cases hn : "no-force-resolution" ∈ w.zypper.cOpts
    · simp [hv, hn, cOpts_count_ne_zero, World.resolver_call, World.out_info, World.out_warning,
        indeterminate, TriBool.toBool, TriBool.ofBool]
      split_ifs <;> simp
    · by_cases hf : "force-resolution" ∈ w.zypper.cOpts
      · simp [hv, hn, hf, cOpts_count_ne_zero, World.resolver_call, World.out_info,
          indeterminate, TriBool.toBool, TriBool.ofBool]
      · cases hc : w.zypper.runtimeData.force_resolution <;>
          simp [hv, hn, hf, hc, cOpts_count_ne_zero, World.resolver_call, World.out_info,
            indeterminate, TriBool.toBool, TriBool.ofBool]
        by_cases h1 : w.zypper.command = ZypperCommand.INSTALL <;>
          by_cases h2 : w.zypper.command = ZypperCommand.REMOVE <;>
          cases h3 : w.zypper.globalOpts.non_interactive <;>
          cases h4 : w.zypper.globalOpts.is_rug_compatible <;>
          simp [h1, h2]

/-- C6, evaluated where the solver fails and reports no problem:
`show_problems` sets `ZYPPER_EXIT_INF_CAP_NOT_FOUND` and signals cancel, the
resolver is not run again, but `solve_and_commit` stores `ZYPPER_EXIT_ERR_ZYPP`
over that code before it returns. -/
theorem cap_not_found_code_overwritten :
    (call_solver (env0 [] (fun _ => 0)) (world0 [])).success = Bool.false ∧
    (call_solver (env0 [] (fun _ => 0)) (world0 [])).world.problems = [] ∧
    (show_problems (env0 [] (fun _ => 0))
      (call_solver (env0 [] (fun _ => 0)) (world0 [])).world).retry = some Bool.false ∧
    (show_problems (env0 [] (fun _ => 0))
      (call_solver (env0 [] (fun _ => 0)) (world0 [])).world).world.zypper.exitCode
      = ExitCode.ZYPPER_EXIT_INF_CAP_NOT_FOUND ∧
    (solve_and_commit (env0 [] (fun _ => 0)) 2 (world0 [])).exitCode?
      = some ExitCode.ZYPPER_EXIT_ERR_ZYPP ∧
    (solve_and_commit (env0 [] (fun _ => 0)) 2 (world0 [])).world?.map
      (fun w => w.solver_runs) = some 1 := by
  decide

/-- C7, evaluated for `zypper install --force-resolution` with the operator
answering 'p' at the first y/n/p prompt and 'n' at the second: after the reply
the cached force-resolution value is false and `undo` is called, nothing is
committed, but the solver run of the next iteration is configured with
`setForceResolve (true)`. -/
theorem show_problems_reply_forces_again :
    (solve_and_commit env_show_problems 3 world_forced).world?.map
      (fun w => w.resolver_calls)
      = some
        [ResolverCall.setForceResolve Bool.true,
          ResolverCall.setOnlyRequires Bool.false,
          ResolverCall.setIgnoreAlreadyRecommended Bool.true,
          ResolverCall.resolvePool,
          ResolverCall.undo,
          ResolverCall.setForceResolve Bool.true,
          ResolverCall.setOnlyRequires Bool.false,
          ResolverCall.setIgnoreAlreadyRecommended Bool.true,
          ResolverCall.resolvePool] ∧
    (solve_and_commit env_show_problems 3 world_forced).world?.map (fun w => w.commits)
      = some [] ∧
    (confirm_prompt env_show_problems (env_show_problems.summary 0) Bool.true
      (broken_dependencies_notice
        ((call_solver env_show_problems world_forced).world.show_summary
          env_show_problems))).world.zypper.runtimeData.force_resolution = TriBool.false := by
  decide

/-- C8: from any state, when the iteration of `solve_and_commit` that starts
there gets to the call of `commit` (the section `CALL SOLVER` is left in state
`w1`, `--debug-solver` is not set, the summary lists something to do, the
privilege check passes, the `PROMPT` section sets `do_commit` and the licences
are confirmed) and `commit` returns a result, `solve_and_commit` returns, and
its final exit code is the one the selection computes from that summary and
from the state the `try` block and the source package installation left: it is
'reboot needed' whenever the summary reports reboot-needed, whether or not
restart-needed is reported; otherwise it is 'restart needed' when the summary
reports restart-needed (unless the code standing is already 'reboot needed'),
and otherwise the code standing is kept. So 'restart needed' is newly set only
when the summary reports restart-needed and not reboot-needed. -/
theorem solve_and_commit_reboot_precedence (env : Env) (fuel : Nat) (w w1 : World)
    (errors : List String) (text : String)
    (hgo : (if w.zypper.runtimeData.solve_before_commit then solving env fuel w
      else SolvingExit.go_on w) = SolvingExit.go_on w1)
    (hdebug : w1.zypper.cOpts_count "debug-solver" = 0)
    (htodo : (shown_summary env w1).packagesToGetAndInstall ≠ 0 ∨
      (shown_summary env w1).packagesToRemove ≠ 0 ∨
      w1.zypper.runtimeData.srcpkgs_to_install.isEmpty = Bool.false)
    (hroot : ¬ (w1.zypper.command = ZypperCommand.VERIFY ∧ env.geteuid ≠ 0 ∧
      w1.zypper.globalOpts.changedRoot = Bool.false))
    (hprompt : (prompt_exit env w1).do_commit = Bool.true)
    (hlic : (env.confirm_licenses (prompt_exit env w1).world.zypper).1 = Bool.true)
    (hres : env.commit (commit_policy (try_entry env w1).zypper)
      = CommitOutcome.result errors text) :
    solve_and_commit env (fuel + 1) w =
      Outcome.finished
        (set_reboot_restart_code (shown_summary env w1)
          (pre_selection_state env w1 errors text)) ∧
    (set_reboot_restart_code (shown_summary env w1)
        (pre_selection_state env w1 errors text)).zypper.exitCode =
      (if (shown_summary env w1).needMachineReboot then
          ExitCode.ZYPPER_EXIT_INF_REBOOT_NEEDED
        else if (pre_selection_state env w1 errors text).zypper.exitCode
              ≠ ExitCode.ZYPPER_EXIT_INF_REBOOT_NEEDED ∧
            (shown_summary env w1).needPkgMgrRestart then
          ExitCode.ZYPPER_EXIT_INF_RESTART_NEEDED
        else (pre_selection_state env w1 errors text).zypper.exitCode) ∧
    ((shown_summary env w1).needMachineReboot = Bool.true →
      (set_reboot_restart_code (shown_summary env w1)
        (pre_selection_state env w1 errors text)).zypper.exitCode
        = ExitCode.ZYPPER_EXIT_INF_REBOOT_NEEDED) ∧
    ((set_reboot_restart_code (shown_summary env w1)
        (pre_selection_state env w1 errors text)).zypper.exitCode
        = ExitCode.ZYPPER_EXIT_INF_RESTART_NEEDED →
      (pre_selection_state env w1 errors text).zypper.exitCode
        ≠ ExitCode.ZYPPER_EXIT_INF_RESTART_NEEDED →
      (shown_summary env w1).needPkgMgrRestart = Bool.true ∧
        (shown_summary env w1).needMachineReboot = Bool.false) := by
  have hrun := solve_and_commit_reaches_commit env fuel w w1 hgo hdebug htodo hroot hprompt hlic
  rw [hres] at hrun
  obtain ⟨e1, e2, _⟩ := set_reboot_restart_code_exit (shown_summary env w1)
    (pre_selection_state env w1 errors text)
  exact ⟨hrun, set_reboot_restart_code_formula _ _, e1, e2⟩

/-- Witness for C8: an install whose commit succeeds. With both reboot-needed
and restart-needed reported it finishes with 'reboot needed', with
restart-needed alone with 'restart needed', with neither flag the exit code
stays `ZYPPER_EXIT_OK`. -/
theorem solve_and_commit_reboot_precedence_witness :
    (solve_and_commit (env_commit Bool.true Bool.true []) 2 (world0 [])).exitCode?
      = some ExitCode.ZYPPER_EXIT_INF_REBOOT_NEEDED ∧
    (solve_and_commit (env_commit Bool.false Bool.true []) 2 (world0 [])).exitCode?
      = some ExitCode.ZYPPER_EXIT_INF_RESTART_NEEDED ∧
    (solve_and_commit (env_commit Bool.false Bool.false []) 2 (world0 [])).exitCode?
      = some ExitCode.ZYPPER_EXIT_OK := by
  have h1 := solve_and_commit_reboot_precedence (env_commit Bool.true Bool.true []) 1
    (world0 []) (call_solver (env_commit Bool.true Bool.true []) (world0 [])).world [] ""
    rfl (by decide) (by decide) (by decide) (by decide) (by decide) rfl
  have h2 := solve_and_commit_reboot_precedence (env_commit Bool.false Bool.true []) 1
    (world0 []) (call_solver (env_commit Bool.false Bool.true []) (world0 [])).world [] ""
    rfl (by decide) (by decide) (by decide) (by decide) (by decide) rfl
  have h3 := solve_and_commit_reboot_precedence (env_commit Bool.false Bool.false []) 1
    (world0 []) (call_solver (env_commit Bool.false Bool.false []) (world0 [])).world [] ""
    rfl (by decide) (by decide) (by decide) (by decide) (by decide) rfl
  refine ⟨?_, ?_, ?_⟩
  · rw [h1.1]; exact congrArg some (h1.2.2.1 rfl)
  · rw [h2.1]; exact congrArg some h2.2.1
  · rw [h3.1]; exact congrArg some h3.2.1

/-- C9, evaluated for a commit that returns a result with a non-empty error
list while the summary reports reboot-needed: the exit code
`ZYPPER_EXIT_ERR_ZYPP` set for the errors is replaced, and `solve_and_commit`
finishes with `ZYPPER_EXIT_INF_REBOOT_NEEDED`. -/
theorem commit_errors_code_replaced_by_reboot :
    (env_commit Bool.true Bool.false ["failed package"]).commit
        { dryRun := none, syncPoolAfterCommit := some Bool.false }
      = CommitOutcome.result ["failed package"] "" ∧
    (solve_and_commit (env_commit Bool.true Bool.false ["failed package"]) 2
      (world0 [])).world?.map (fun w => w.commits)
      = some [{ dryRun := none, syncPoolAfterCommit := some Bool.false }] ∧
    (solve_and_commit (env_commit Bool.true Bool.false ["failed package"]) 2
      (world0 [])).exitCode? = some ExitCode.ZYPPER_EXIT_INF_REBOOT_NEEDED ∧
    (solve_and_commit (env_commit Bool.false Bool.true ["failed package"]) 2
      (world0 [])).exitCode? = some ExitCode.ZYPPER_EXIT_INF_RESTART_NEEDED ∧
    (solve_and_commit (env_commit Bool.false Bool.false ["failed package"]) 2
      (world0 [])).exitCode? = some ExitCode.ZYPPER_EXIT_ERR_ZYPP := by
  decide

/-- C10: whenever solving is required, `--debug-solver` is not set, the solver
run fails and `show_problems` signals abort, `solve_and_commit` returns at
once in the state `show_problems` left, with the exit code set to
`ZYPPER_EXIT_ERR_ZYPP`: no summary is computed, no confirmation prompt is shown,
no licence is asked for and `commit` is not called. -/
theorem solve_and_commit_abort (env : Env) (fuel : Nat) (w : World)
    (hsolve : w.zypper.runtimeData.solve_before_commit = Bool.true)
    (hdebug : w.zypper.cOpts_count "debug-solver" = 0)
    (hfail : (call_solver env w).success = Bool.false)
    (habort : (show_problems env (call_solver env w).world).retry = some Bool.false) :
    ∃ wf, solve_and_commit env (fuel + 2) w = Outcome.finished wf ∧
      wf = (show_problems env (call_solver env w).world).world.setExitCode
        ExitCode.ZYPPER_EXIT_ERR_ZYPP ∧
      wf.zypper.exitCode = ExitCode.ZYPPER_EXIT_ERR_ZYPP ∧
      wf.summaries = w.summaries ∧
      confirm_prompts wf.zypper.out = confirm_prompts w.zypper.out ∧
      wf.bool_answers = w.bool_answers ∧
      wf.license_checks = w.license_checks ∧
      wf.commits = w.commits := by
  obtain ⟨c1, c2⟩ := call_solver_solving_frame env w
  obtain ⟨p1, p2⟩ := show_problems_solving_frame env (call_solver env w).world
  have hc : (call_solver env w).world.zypper.cOpts_count "debug-solver" = 0 := by
    unfold Zypper.cOpts_count at hdebug ⊢
    rw [solving_frame_cOpts c1]
    exact hdebug
  have hsolving : solving env (fuel + 1) w =
      SolvingExit.returned ((show_problems env (call_solver env w).world).world.setExitCode
        ExitCode.ZYPPER_EXIT_ERR_ZYPP) := by
    simp [solving, hfail, hc, habort]
  refine ⟨_, ?_, rfl, rfl, ?_⟩
  · simp [solve_and_commit, solve_and_commit_loop, loop_body, hsolve, hsolving]
  · obtain ⟨f1, f2, f3, f4, _⟩ := solving_frame_fields (p1.trans c1)
    exact ⟨f1, p2.trans c2, f2, f4, f3⟩

/-- Witness for C10: a single problem with two solutions and reply 2 (cancel). -/
theorem solve_and_commit_abort_witness :
    ∃ wf, solve_and_commit (env0 [prob2] (fun _ => 2)) 2 (world0 []) = Outcome.finished wf ∧
      wf = (show_problems (env0 [prob2] (fun _ => 2))
          (call_solver (env0 [prob2] (fun _ => 2)) (world0 [])).world).world.setExitCode
        ExitCode.ZYPPER_EXIT_ERR_ZYPP ∧
      wf.zypper.exitCode = ExitCode.ZYPPER_EXIT_ERR_ZYPP ∧
      wf.summaries = (world0 []).summaries ∧
      confirm_prompts wf.zypper.out = confirm_prompts (world0 []).zypper.out ∧
      wf.bool_answers = (world0 []).bool_answers ∧
      wf.license_checks = (world0 []).license_checks ∧
      wf.commits = (world0 []).commits :=
  solve_and_commit_abort (env0 [prob2] (fun _ => 2)) 0 (world0 []) (by decide) (by decide)
    (by decide) (by decide)

/-- C11: from any state, when the iteration of `solve_and_commit` that starts
there gets to the call of `commit` (as for C8) and `commit` raises a media,
repository or file-check failure, `solve_and_commit` returns at once in the
state the `catch` clause leaves: the exit code is `ZYPPER_EXIT_ERR_ZYPP`, no
source package is installed, no reboot / restart code is chosen, no solver run
or summary follows. When it raises another (generic) failure,
`ZYPPER_EXIT_ERR_ZYPP` is set and `solve_and_commit` returns after the
bookkeeping that follows the `try` block: pending source packages are installed
and the reboot / restart exit code is chosen from the summary flags. -/
theorem solve_and_commit_commit_failure (env : Env) (fuel : Nat) (w w1 : World)
    (hgo : (if w.zypper.runtimeData.solve_before_commit then solving env fuel w
      else SolvingExit.go_on w) = SolvingExit.go_on w1)
    (hdebug : w1.zypper.cOpts_count "debug-solver" = 0)
    (htodo : (shown_summary env w1).packagesToGetAndInstall ≠ 0 ∨
      (shown_summary env w1).packagesToRemove ≠ 0 ∨
      w1.zypper.runtimeData.srcpkgs_to_install.isEmpty = Bool.false)
    (hroot : ¬ (w1.zypper.command = ZypperCommand.VERIFY ∧ env.geteuid ≠ 0 ∧
      w1.zypper.globalOpts.changedRoot = Bool.false))
    (hprompt : (prompt_exit env w1).do_commit = Bool.true)
    (hlic : (env.confirm_licenses (prompt_exit env w1).world.zypper).1 = Bool.true) :
    ((env.commit (commit_policy (try_entry env w1).zypper) = CommitOutcome.MediaException ∨
        (∃ repo_alias refresh_needed,
          env.commit (commit_policy (try_entry env w1).zypper)
            = CommitOutcome.RepoException repo_alias refresh_needed) ∨
        env.commit (commit_policy (try_entry env w1).zypper)
          = CommitOutcome.FileCheckException) →
      ∃ wf text, solve_and_commit env (fuel + 1) w = Outcome.finished wf ∧
        wf = ((call_commit (shown_summary env w1) (try_entry env w1)).out_error
          text).setExitCode ExitCode.ZYPPER_EXIT_ERR_ZYPP ∧
        wf.zypper.exitCode = ExitCode.ZYPPER_EXIT_ERR_ZYPP ∧
        wf.src_installs = (try_entry env w1).src_installs ∧
        wf.solver_runs = (try_entry env w1).solver_runs ∧
        wf.summaries = (try_entry env w1).summaries) ∧
    (env.commit (commit_policy (try_entry env w1).zypper) = CommitOutcome.Exception →
      ∃ wf text, solve_and_commit env (fuel + 1) w = Outcome.finished wf ∧
        wf = set_reboot_restart_code (shown_summary env w1)
          (install_pending_src_pkgs env
            (((call_commit (shown_summary env w1) (try_entry env w1)).out_error
              text).setExitCode ExitCode.ZYPPER_EXIT_ERR_ZYPP)) ∧
        ((try_entry env w1).zypper.runtimeData.srcpkgs_to_install.isEmpty = Bool.false →
          wf.src_installs = (try_entry env w1).src_installs + 1) ∧
        wf.zypper.exitCode =
          (if (shown_summary env w1).needMachineReboot then
              ExitCode.ZYPPER_EXIT_INF_REBOOT_NEEDED
            else if (install_pending_src_pkgs env
                  (((call_commit (shown_summary env w1) (try_entry env w1)).out_error
                    text).setExitCode ExitCode.ZYPPER_EXIT_ERR_ZYPP)).zypper.exitCode
                  ≠ ExitCode.ZYPPER_EXIT_INF_REBOOT_NEEDED ∧
                (shown_summary env w1).needPkgMgrRestart then
              ExitCode.ZYPPER_EXIT_INF_RESTART_NEEDED
            else (install_pending_src_pkgs env
                  (((call_commit (shown_summary env w1) (try_entry env w1)).out_error
                    text).setExitCode ExitCode.ZYPPER_EXIT_ERR_ZYPP)).zypper.exitCode) ∧
        ((try_entry env w1).zypper.runtimeData.srcpkgs_to_install.isEmpty = Bool.true →
          wf.zypper.exitCode =
            (if (shown_summary env w1).needMachineReboot then
                ExitCode.ZYPPER_EXIT_INF_REBOOT_NEEDED
              else if (shown_summary env w1).needPkgMgrRestart then
                ExitCode.ZYPPER_EXIT_INF_RESTART_NEEDED
              else ExitCode.ZYPPER_EXIT_ERR_ZYPP))) := by
  have hrun := solve_and_commit_reaches_commit env fuel w w1 hgo hdebug htodo hroot hprompt hlic
  refine ⟨?_, ?_⟩
  · intro hfatal
    rcases hfatal with hm | ⟨a, r, hr⟩ | hf
    · rw [hm] at hrun
      exact ⟨_, _, hrun, rfl, rfl, rfl, rfl, rfl⟩
    · rw [hr] at hrun
      exact ⟨_, _, hrun, rfl, rfl, rfl, rfl, rfl⟩
    · rw [hf] at hrun
      exact ⟨_, _, hrun, rfl, rfl, rfl, rfl, rfl⟩
  · intro hg
    rw [hg] at hrun
    refine ⟨_, _, hrun, rfl, ?_, ?_, ?_⟩
    · intro hsrc
      simp only [commit_finished, post_commit]
      rw [set_reboot_restart_code_src_installs]
      simp [install_pending_src_pkgs, call_commit, World.out_error, World.setExitCode,
        Zypper.setExitCode, World.out_info, hsrc]
    · simp only [commit_finished, post_commit]
      exact set_reboot_restart_code_formula _ _
    · intro hsrc
      simp only [commit_finished, post_commit]
      rw [set_reboot_restart_code_formula]
      cases hrb : (shown_summary env w1).needMachineReboot <;>
        cases hrs : (shown_summary env w1).needPkgMgrRestart <;>
        simp [install_pending_src_pkgs, call_commit, World.out_error, World.setExitCode,
          Zypper.setExitCode, World.out_info, hsrc]

/-- Witness for C11: an install with one pending source package whose summary
reports reboot-needed. A media failure of `commit` ends the run with
`ZYPPER_EXIT_ERR_ZYPP` and no source package installation; a generic failure
lets the bookkeeping run: the source package is installed and the exit code
becomes `ZYPPER_EXIT_INF_REBOOT_NEEDED`. -/
theorem solve_and_commit_commit_failure_witness :
    ((solve_and_commit (env_commit_outcome Bool.true Bool.true CommitOutcome.MediaException) 2
        world_srcpkgs).exitCode? = some ExitCode.ZYPPER_EXIT_ERR_ZYPP ∧
      (solve_and_commit (env_commit_outcome Bool.true Bool.true CommitOutcome.MediaException) 2
        world_srcpkgs).world?.map (fun w => w.src_installs) = some 0) ∧
    ((solve_and_commit (env_commit_outcome Bool.true Bool.true CommitOutcome.Exception) 2
        world_srcpkgs).exitCode? = some ExitCode.ZYPPER_EXIT_INF_REBOOT_NEEDED ∧
      (solve_and_commit (env_commit_outcome Bool.true Bool.true CommitOutcome.Exception) 2
        world_srcpkgs).world?.map (fun w => w.src_installs) = some 1) := by
  obtain ⟨wf, _, h1, _, h2, h3, _⟩ :=
    (solve_and_commit_commit_failure
      (env_commit_outcome Bool.true Bool.true CommitOutcome.MediaException) 1 world_srcpkgs
      (call_solver (env_commit_outcome Bool.true Bool.true CommitOutcome.MediaException)
        world_srcpkgs).world
      rfl (by decide) (by decide) (by decide) (by decide) (by decide)).1 (Or.inl rfl)
  obtain ⟨wg, _, g1, _, g2, g3, _⟩ :=
    (solve_and_commit_commit_failure
      (env_commit_outcome Bool.true Bool.true CommitOutcome.Exception) 1 world_srcpkgs
      (call_solver (env_commit_outcome Bool.true Bool.true CommitOutcome.Exception)
        world_srcpkgs).world
      rfl (by decide) (by decide) (by decide) (by decide) (by decide)).2 rfl
  refine ⟨⟨?_, ?_⟩, ?_, ?_⟩
  · rw [h1]; exact congrArg some h2
  · rw [h1]; exact congrArg some h3
  · rw [g1]; exact congrArg some g3
  · rw [g1]; exact congrArg some (g2 rfl)

/-- C12: for a problem with N >= 1 solutions whose prompt is reached in a batch
(the problems before it, if any, were answered by a solution number or skip),
the default reply index `show_problem` configures on the prompt is N + 2 when
the resolver reports more than one problem and N otherwise, and a reply equal
to that default decodes to cancel: `show_problem` shows the prompt with that
default, returns false and leaves todo unchanged, and `show_problems` returns
false (abort) without any call on the resolver. -/
theorem default_reply_cancels (env : Env) (w : World) (pre post : ResolverProblemList)
    (prob : ResolverProblem)
    (hbatch : w.problems = pre ++ prob :: post)
    (hN : 1 ≤ prob.solutions.length)
    (hsol : ∀ p ∈ pre, 1 ≤ p.solutions.length)
    (hpre : ∀ (i : Nat) (hi : i < pre.length),
      env.get_prompt_reply (w.prompt_replies + i) < (pre.get ⟨i, hi⟩).solutions.length ∨
        (1 < w.problems.length ∧
          env.get_prompt_reply (w.prompt_replies + i) = (pre.get ⟨i, hi⟩).solutions.length))
    (hdefault : env.get_prompt_reply (w.prompt_replies + pre.length)
      = (show_problem_popts w.problems.length prob.solutions.length).default_opt) :
    (show_problem_popts w.problems.length prob.solutions.length).default_opt
      = (if 1 < w.problems.length then prob.solutions.length + 2
          else prob.solutions.length) ∧
    (∀ (w1 : World) (todo : ProblemSolutionList),
      w1.problems = w.problems → w1.prompt_replies = w.prompt_replies + pre.length →
      (show_problem env w1 prob todo).result = some TriBool.false ∧
      (show_problem env w1 prob todo).todo = todo ∧
      OutEvent.prompt PromptId.PROMPT_DEP_RESOLVE
          (show_problem_prompt_text w.problems.length prob.solutions.length)
          (show_problem_popts w.problems.length prob.solutions.length)
          (problem_text prob) ∈ (show_problem env w1 prob todo).world.zypper.out) ∧
    (show_problems env w).retry = some Bool.false ∧
    (show_problems env w).world.resolver_calls = w.resolver_calls := by
  have hP : 1 ≤ w.problems.length := by rw [hbatch]; simp; omega
  have hshow : ∀ (w1 : World) (todo : ProblemSolutionList),
      w1.problems = w.problems → w1.prompt_replies = w.prompt_replies + pre.length →
      (show_problem env w1 prob todo).result = some TriBool.false ∧
      (show_problem env w1 prob todo).todo = todo ∧
      OutEvent.prompt PromptId.PROMPT_DEP_RESOLVE
          (show_problem_prompt_text w.problems.length prob.solutions.length)
          (show_problem_popts w.problems.length prob.solutions.length)
          (problem_text prob) ∈ (show_problem env w1 prob todo).world.zypper.out := by
    intro w1 todo e1 e2
    have := show_problem_default_reply env w1 prob todo hN (by rw [e1]; exact hP)
      (by rw [e1, e2]; exact hdefault)
    rw [e1] at this
    exact this
  refine ⟨?_, hshow, ?_⟩
  · unfold show_problem_popts
    split_ifs <;> rfl
  · have hne : w.problems.isEmpty = Bool.false := isEmpty_false_of_length _ hP
    obtain ⟨i1, _, _⟩ := show_problems_listing_io w
    have hfr := show_problems_listing_frame w
    have hprob : (show_problems_listing w).problems = w.problems := frame_problems hfr
    have hpre2 : ∀ (i : Nat) (hi : i < pre.length),
        env.get_prompt_reply ((show_problems_listing w).prompt_replies + i)
            < (pre.get ⟨i, hi⟩).solutions.length ∨
          (1 < (show_problems_listing w).problems.length ∧
            env.get_prompt_reply ((show_problems_listing w).prompt_replies + i)
              = (pre.get ⟨i, hi⟩).solutions.length) := by
      intro i hi
      rw [i1, hprob]
      exact hpre i hi
    obtain ⟨todo1, w1, g1, g2, g3⟩ := show_problems_loop_prefix env pre (prob :: post)
      Bool.true [] (show_problems_listing w) hsol hpre2
    have hw1 : (w1.out_info "").problems = w.problems :=
      (frame_problems g2).trans hprob
    have hw1r : (w1.out_info "").prompt_replies = w.prompt_replies + pre.length := by
      show w1.prompt_replies = w.prompt_replies + pre.length
      rw [g3, i1]
    obtain ⟨r1, _⟩ := hshow (w1.out_info "") todo1 hw1 hw1r
    have hloop : (show_problems_loop env w.problems Bool.true [] (show_problems_listing w)).retry
        = some Bool.false := by
      rw [hbatch, g1]
      simp [show_problems_loop, r1, indeterminate, TriBool.eqBool, TriBool.ofBool,
        TriBool.toBool]
    have hcalls := frame_resolver_calls
      ((show_problems_loop_frame env w.problems Bool.true [] (show_problems_listing w)).trans hfr)
    simp only [show_problems, hne, show_problems_finish, hloop]
    simp [hcalls]


/-- Witness for C12: two problems reported, the first with two solutions; the
default reply 4 (= N + 2) makes `show_problems` abort without a resolver call. -/
theorem default_reply_cancels_witness :
    (show_problem_popts (world0 [prob2, prob1]).problems.length prob2.solutions.length).default_opt
      = 4 ∧
    (show_problems (env0 [] (fun _ => 4)) (world0 [prob2, prob1])).retry = some Bool.false ∧
    (show_problems (env0 [] (fun _ => 4)) (world0 [prob2, prob1])).world.resolver_calls = [] :=
  ⟨(default_reply_cancels (env0 [] (fun _ => 4)) (world0 [prob2, prob1]) [] [prob1] prob2 rfl
      (by decide) (by decide) (by decide) (by decide)).1,
    (default_reply_cancels (env0 [] (fun _ => 4)) (world0 [prob2, prob1]) [] [prob1] prob2 rfl
      (by decide) (by decide) (by decide) (by decide)).2.2⟩

/-- C13: in `show_problem`, for a problem with N >= 1 solutions, a problem count
of at least one and a reply r that is one of the options offered (the prompt
has N + 1 options when one problem is reported, N + 3 when more are): the
out-of-range outcome does not occur; whenever the reply decoding is passed and
the solution-selection step is reached, r < N, the r-th solution (counted from
0) exists and is the entry appended to todo; otherwise todo is left as it is. -/
theorem show_problem_selection_in_range (env : Env) (w : World) (prob : ResolverProblem)
    (todo : ProblemSolutionList) (hN : 1 ≤ prob.solutions.length)
    (hP : 1 ≤ w.problems.length)
    (hreply : env.get_prompt_reply w.prompt_replies
      < (show_problem_popts w.problems.length prob.solutions.length).options.length) :
    (show_problem_popts w.problems.length prob.solutions.length).options.length
      = (if 1 < w.problems.length then prob.solutions.length + 3
          else prob.solutions.length + 1) ∧
    (show_problem env w prob todo).result ≠ none ∧
    (reaches_selection w.problems.length prob.solutions.length
        (env.get_prompt_reply w.prompt_replies) →
      env.get_prompt_reply w.prompt_replies < prob.solutions.length ∧
      ∃ solution,
        prob.solutions.get? (env.get_prompt_reply w.prompt_replies) = some solution ∧
        (show_problem env w prob todo).result = some TriBool.indeterminate ∧
        (show_problem env w prob todo).todo = todo ++ [solution]) ∧
    (¬ reaches_selection w.problems.length prob.solutions.length
        (env.get_prompt_reply w.prompt_replies) →
      (show_problem env w prob todo).todo = todo) := by
  have hne := isEmpty_false_of_length prob.solutions hN
  have hlen : (show_problem_popts w.problems.length prob.solutions.length).options.length
      = (if 1 < w.problems.length then prob.solutions.length + 3
          else prob.solutions.length + 1) := by
    unfold show_problem_popts
    split_ifs <;> simp [PromptOptions.setOptions, number_labels_length]
  rw [hlen] at hreply
  have hsel : reaches_selection w.problems.length prob.solutions.length
      (env.get_prompt_reply w.prompt_replies) →
      env.get_prompt_reply w.prompt_replies < prob.solutions.length := by
    intro h
    unfold reaches_selection at h
    split_ifs at hreply <;> omega
  have key_sel : reaches_selection w.problems.length prob.solutions.length
      (env.get_prompt_reply w.prompt_replies) →
      ∃ solution,
        prob.solutions.get? (env.get_prompt_reply w.prompt_replies) = some solution ∧
        (show_problem env w prob todo).result = some TriBool.indeterminate ∧
        (show_problem env w prob todo).todo = todo ++ [solution] := by
    intro h
    have hlt := hsel h
    obtain ⟨g1, g2, g3, g4⟩ := h
    have hs : prob.solutions[env.get_prompt_reply w.prompt_replies]? =
        some (prob.solutions.get ⟨_, hlt⟩) := by
      simp [List.getElem?_eq_getElem hlt]
    refine ⟨prob.solutions.get ⟨_, hlt⟩, List.get?_eq_get hlt, ?_⟩
    simp only [show_problem, hne, World.next_reply, World.out_prompt, World.after_reply]
    simp [g1, g2, g3, g4, hs, World.out_info]
  have key_no : ¬ reaches_selection w.problems.length prob.solutions.length
      (env.get_prompt_reply w.prompt_replies) →
      (show_problem env w prob todo).result ≠ none ∧
      (show_problem env w prob todo).todo = todo := by
    intro h
    unfold reaches_selection at h
    simp only [show_problem, hne, World.next_reply, World.out_prompt, World.after_reply]
    simp only [Bool.false_eq_true, if_false]
    split_ifs with g1 g2 g3 g4
    · exact ⟨by simp, rfl⟩
    · exact ⟨by simp, rfl⟩
    · exact ⟨by simp, rfl⟩
    · exact ⟨by simp, rfl⟩
    · exact absurd ⟨g1, g2, g3, g4⟩ h
  refine ⟨hlen, ?_, fun h => ⟨hsel h, key_sel h⟩, fun h => (key_no h).2⟩
  by_cases h : reaches_selection w.problems.length prob.solutions.length
      (env.get_prompt_reply w.prompt_replies)
  · obtain ⟨s, _, hres, _⟩ := key_sel h
    rw [hres]; simp
  · exact (key_no h).1


/-- Witness for C13: two problems reported; reply 1 to a problem with two
solutions reaches the selection step and appends the second solution. -/
theorem show_problem_selection_in_range_witness :
    (1 ≤ prob2.solutions.length ∧ 1 ≤ (world0 [prob2, prob1]).problems.length ∧
      (env0 [] (fun _ => 1)).get_prompt_reply (world0 [prob2, prob1]).prompt_replies
        < (show_problem_popts (world0 [prob2, prob1]).problems.length
            prob2.solutions.length).options.length ∧
      reaches_selection (world0 [prob2, prob1]).problems.length prob2.solutions.length
        ((env0 [] (fun _ => 1)).get_prompt_reply (world0 [prob2, prob1]).prompt_replies)) ∧
    (show_problem (env0 [] (fun _ => 1)) (world0 [prob2, prob1]) prob2 [sol1]).result ≠ none ∧
    ∃ solution,
      prob2.solutions.get?
          ((env0 [] (fun _ => 1)).get_prompt_reply (world0 [prob2, prob1]).prompt_replies)
        = some solution ∧
      (show_problem (env0 [] (fun _ => 1)) (world0 [prob2, prob1]) prob2 [sol1]).result
        = some TriBool.indeterminate ∧
      (show_problem (env0 [] (fun _ => 1)) (world0 [prob2, prob1]) prob2 [sol1]).todo
        = [sol1] ++ [solution] :=
  ⟨by decide,
    (show_problem_selection_in_range (env0 [] (fun _ => 1)) (world0 [prob2, prob1]) prob2 [sol1]
      (by decide) (by decide) (by decide)).2.1,
    ((show_problem_selection_in_range (env0 [] (fun _ => 1)) (world0 [prob2, prob1]) prob2 [sol1]
      (by decide) (by decide) (by decide)).2.2.1 (by decide)).2⟩


end SolveCommit
